import Mathlib

/-!
Verification of the `grid-sdk-cli` command-line client (`src/index.ts`).

The program is a sequential, single-threaded interactive CLI.  Every piece of
behaviour the claims talk about is embedded shallowly below:

* JavaScript numbers are IEEE-754 binary64 values.  We model them exactly:
  a `Frac` is an unreduced exact fraction (kernel-computable, unlike `ℚ`
  whose normalisation is not kernel-reducible), `fl` rounds an exact value
  to the binary64 grid (round-to-nearest, ties-to-even, with the subnormal
  grid below `2^-1022` and overflow to infinity at `2^1024`), and `JSNum`
  adds `NaN` and the infinities.  `jsParseFloat` follows the ECMAScript
  `parseFloat` grammar (longest valid prefix, optional sign, `Infinity`,
  decimal digits with optional fraction and exponent) and rounds the exact
  decimal value to the nearest double.
* The process state is the pair of module-level variables
  `userSession` / `sessionSecrets`; every flow is a pure function from that
  state and an environment (the oracle answers of the `@sqds/grid` client,
  the Solana RPC connection, and the interactive prompts) to the list of
  console lines printed, the list of SDK/RPC calls issued, and the new state.
* SDK and RPC response payloads that the program never inspects are inert
  (`ℕ` tags); response fields that the program does inspect are `Option`s,
  with JavaScript truthiness made explicit where the code relies on it.
-/

set_option maxRecDepth 10000

/-! ### A kernel-computable base-2 logarithm -/

/-- Fuel-based binary logarithm: `lgAux fuel n` halves `n` until it drops
below `2`, so for `n ≤ fuel` it computes `⌊log₂ n⌋`.  Structural recursion on
the fuel keeps it reducible by the kernel. -/
def lgAux : ℕ → ℕ → ℕ
  | 0, _ => 0
  | fuel + 1, n => if n < 2 then 0 else lgAux fuel (n / 2) + 1

/-- `⌊log₂ n⌋` for `n ≥ 1` (and `0` for `n = 0`). -/
def natLog2 (n : ℕ) : ℕ := lgAux n n

/-! ### Exact fractions -/

/-- An exact, possibly unreduced fraction `num / den`.  All fractions built by
the model have a positive denominator. -/
structure Frac where
  num : ℤ
  den : ℕ
  deriving DecidableEq, Repr

/-- The rational value of a fraction (used in theorem statements only). -/
def Frac.val (f : Frac) : ℚ := (f.num : ℚ) / (f.den : ℚ)

/-- Decide `f ≤ 0` (for positive denominators). -/
def fracLeZero (f : Frac) : Bool := f.num ≤ 0

/-- Decide `c < f` for a natural constant `c` (for positive denominators). -/
def fracGtNat (f : Frac) (c : ℕ) : Bool := ((c : ℤ) * f.den) < f.num

/-- `2 ^ k`, computed by a shift so that the kernel evaluates it even for
the large exponents binary64 needs (`2^1074`, `2^1024`). -/
def pow2 (k : ℕ) : ℕ := Nat.shiftLeft 1 k

/-- Decide `2^g ≤ f` by cross-multiplication (for positive denominators). -/
def fracLePow2 (g : ℤ) (f : Frac) : Bool :=
  if 0 ≤ g then ((pow2 g.toNat : ℤ) * f.den) ≤ f.num
  else (f.den : ℤ) ≤ f.num * (pow2 (-g).toNat : ℤ)

/-- `⌊log₂ f⌋` for a positive fraction: the candidate from the numerator and
denominator logarithms is off by at most one, which the explicit comparison
settles. -/
def flog2 (f : Frac) : ℤ :=
  let g : ℤ := (natLog2 f.num.toNat : ℤ) - (natLog2 f.den : ℤ)
  if fracLePow2 g f then g else g - 1

/-! ### Binary64 rounding -/

/-- Round `n / d` (with `d > 0`) to the nearest integer, ties to even. -/
def roundNE (n d : ℤ) : ℤ :=
  let q := n.ediv d
  let r := n.emod d
  if 2 * r < d then q
  else if d < 2 * r then q + 1
  else if q.emod 2 = 0 then q else q + 1

/-- Round `f / 2^p` to the nearest integer, ties to even. -/
def scaleToInt (f : Frac) (p : ℤ) : ℤ :=
  if 0 ≤ p then roundNE f.num ((f.den : ℤ) * (pow2 p.toNat : ℤ))
  else roundNE (f.num * (pow2 (-p).toNat : ℤ)) (f.den : ℤ)

/-- The fraction `m * 2^p`. -/
def dyadic (m : ℤ) (p : ℤ) : Frac :=
  if 0 ≤ p then ⟨m * (pow2 p.toNat : ℤ), 1⟩ else ⟨m, pow2 (-p).toNat⟩

/-- Round a positive exact value to the binary64 grid: 53 significant bits
for values at or above `2^-1022`, the fixed grid `2^-1074` below it.
Overflow is checked by `fl`. -/
def flPos (f : Frac) : Frac :=
  let e := flog2 f
  let p : ℤ := if e < -1022 then -1074 else e - 52
  dyadic (scaleToInt f p) p

/-- A JavaScript number: an IEEE-754 binary64 value. -/
inductive JSNum where
  | nan
  | posInf
  | negInf
  | finite (f : Frac)
  deriving DecidableEq, Repr

/-- Round an exact value to the nearest binary64 value (ties to even),
overflowing to the infinities at `2^1024`. -/
def fl (f : Frac) : JSNum :=
  if f.num = 0 then .finite ⟨0, 1⟩
  else if 0 < f.num then
    if fracLePow2 1024 (flPos f) then .posInf else .finite (flPos f)
  else
    let g := flPos ⟨-f.num, f.den⟩
    if fracLePow2 1024 g then .negInf else .finite ⟨-g.num, g.den⟩

/-- IEEE-754 multiplication of JavaScript numbers. -/
def jsMul : JSNum → JSNum → JSNum
  | .finite a, .finite b => fl ⟨a.num * b.num, a.den * b.den⟩
  | .nan, _ => .nan
  | _, .nan => .nan
  | .posInf, .posInf => .posInf
  | .posInf, .negInf => .negInf
  | .negInf, .posInf => .negInf
  | .negInf, .negInf => .posInf
  | .posInf, .finite b => if b.num = 0 then .nan else if 0 < b.num then .posInf else .negInf
  | .negInf, .finite b => if b.num = 0 then .nan else if 0 < b.num then .negInf else .posInf
  | .finite a, .posInf => if a.num = 0 then .nan else if 0 < a.num then .posInf else .negInf
  | .finite a, .negInf => if a.num = 0 then .nan else if 0 < a.num then .negInf else .posInf

/-- `isNaN`. -/
def jsIsNaN : JSNum → Bool
  | .nan => true
  | _ => false

/-- The JavaScript comparison `num <= 0` (false on `NaN`). -/
def jsLeZero : JSNum → Bool
  | .nan => false
  | .posInf => false
  | .negInf => true
  | .finite f => fracLeZero f

/-- The JavaScript comparison `num > c` for a natural constant `c`
(false on `NaN`). -/
def jsGtNat : JSNum → ℕ → Bool
  | .nan, _ => false
  | .posInf, _ => true
  | .negInf, _ => false
  | .finite f, c => fracGtNat f c

/-- `Math.floor`, read back as an exact integer.  The non-finite cases are
unreachable in the flows because `validateAmount` rejects `NaN` and the
infinities before any conversion happens; they are mapped to `0`. -/
def jsFloorInt : JSNum → ℤ
  | .finite f => f.num.ediv (f.den : ℤ)
  | _ => 0

/-! ### `parseFloat` -/

/-- ECMAScript `StrWhiteSpaceChar` (the characters relevant to this model:
ASCII whitespace, NBSP and the BOM). -/
def isJsWhitespace (c : Char) : Bool :=
  c = ' ' || c = '\t' || c = '\n' || c = '\r' ||
  c = Char.ofNat 11 || c = Char.ofNat 12 || c = Char.ofNat 0xa0 || c = Char.ofNat 0xfeff

/-- The natural number denoted by a list of decimal digits. -/
def digitsVal (cs : List Char) : ℕ :=
  cs.foldl (fun a c => 10 * a + (c.toNat - 48)) 0

/-- Exponent tail after `e`/`E`: optional sign, then digits; an exponent
without digits is trailing garbage and contributes `0`. -/
def parseExponentTail (l : List Char) : ℤ :=
  let (neg, r) : Bool × List Char :=
    match l with
    | '+' :: r => (false, r)
    | '-' :: r => (true, r)
    | r => (false, r)
  let ds := r.takeWhile Char.isDigit
  if ds.isEmpty then 0
  else if neg then -(digitsVal ds : ℤ) else (digitsVal ds : ℤ)

/-- Optional exponent part of a decimal literal. -/
def parseExponent (l : List Char) : ℤ :=
  match l with
  | 'e' :: rest => parseExponentTail rest
  | 'E' :: rest => parseExponentTail rest
  | _ => 0

/-- The exact mathematical value of the longest `StrDecimalLiteral` prefix of
the input, or `NaN` when there is none: leading whitespace is skipped, an
optional sign is followed by `Infinity` or by decimal digits with an optional
fraction and exponent; trailing garbage is ignored. -/
def jsParseFloatExact (s : String) : JSNum :=
  let l := s.data.dropWhile isJsWhitespace
  let (neg, l1) : Bool × List Char :=
    match l with
    | '+' :: r => (false, r)
    | '-' :: r => (true, r)
    | r => (false, r)
  if l1.take 8 = "Infinity".data then (if neg then .negInf else .posInf)
  else
    let ints := l1.takeWhile Char.isDigit
    let r1 := l1.dropWhile Char.isDigit
    let (fracs, r2) : List Char × List Char :=
      match r1 with
      | '.' :: rest => (rest.takeWhile Char.isDigit, rest.dropWhile Char.isDigit)
      | _ => ([], r1)
    if ints.isEmpty && fracs.isEmpty then .nan
    else
      let e := parseExponent r2
      let m : ℤ := (digitsVal ints * 10 ^ fracs.length + digitsVal fracs : ℕ)
      let sm : ℤ := if neg then -m else m
      if 0 ≤ e then .finite ⟨sm * 10 ^ e.toNat, 10 ^ fracs.length⟩
      else .finite ⟨sm, 10 ^ fracs.length * 10 ^ (-e).toNat⟩

/-- `parseFloat`: the exact decimal value of the literal, rounded to the
nearest binary64 value. -/
def jsParseFloat (s : String) : JSNum :=
  match jsParseFloatExact s with
  | .finite f => fl f
  | x => x

/-! ### `validateAmount` (src/index.ts lines 72–92) -/

inductive TokenType where
  | USDC
  | SOL
  deriving DecidableEq, Repr

/-- Result record `{ valid: boolean; error?: string }`. -/
structure ValidationResult where
  valid : Bool
  error : Option String
  deriving DecidableEq, Repr

/-- `validateAmount(amount, tokenType)`: `parseFloat` the string, reject
`NaN`, reject `num <= 0`, reject amounts above the per-token cap. -/
def validateAmount (amount : String) (tokenType : TokenType) : ValidationResult :=
  let num := jsParseFloat amount
  if jsIsNaN num then ⟨false, some "Please enter a valid number"⟩
  else if jsLeZero num then ⟨false, some "Amount must be greater than 0"⟩
  else if tokenType = .USDC && jsGtNat num 1000000 then
    ⟨false, some "USDC amount too large (max: 1,000,000)"⟩
  else if tokenType = .SOL && jsGtNat num 10000 then
    ⟨false, some "SOL amount too large (max: 10,000)"⟩
  else ⟨true, none⟩


/-! ### JavaScript truthiness helpers -/

/-- Truthiness of an optional string field: `undefined` and `""` are falsy,
every non-empty string is truthy. -/
def truthyS : Option String → Bool
  | none => false
  | some s => s ≠ ""

/-- `a || b` on string-valued fields. -/
def jsOrS (a b : Option String) : Option String := if truthyS a then a else b

/-- `a || d` on a string-valued field with a string literal default. -/
def jsOrStr (a : Option String) (d : String) : String :=
  if truthyS a then a.getD "" else d

/-- Rendering of a possibly-`undefined` string interpolated into console
output. -/
def renderOptS : Option String → String
  | none => "undefined"
  | some s => s

/-- Truthiness of an optional numeric field: `undefined` and `0` are falsy. -/
def truthyFrac : Option Frac → Bool
  | none => false
  | some f => f.num ≠ 0

/-- The string `trim()` used by the prompt validators (JavaScript trims the
same whitespace set `parseFloat` skips). -/
def jsTrim (s : String) : String :=
  ⟨((s.data.dropWhile isJsWhitespace).reverse.dropWhile isJsWhitespace).reverse⟩

/-! ### Data model: session state (src/index.ts lines 40–43) -/

/-- Inert signing-context object (the `session` / `authentication` fields of
the stored session object).  JavaScript objects are always truthy, so for
these fields truthiness coincides with presence. -/
structure AuthContext where
  tag : ℕ
  deriving DecidableEq, Repr

/-- Inert cryptographic material returned by `generateSessionSecrets`. -/
structure SessionSecrets where
  tag : ℕ
  deriving DecidableEq, Repr

/-- The fields of the stored session object (the completed-auth response)
that `src/index.ts` reads.  Everything else it carries is inert (`rest`). -/
structure Session where
  smart_account_address : Option String
  address : Option String
  grid_user_id : Option String
  session : Option AuthContext
  authentication : Option AuthContext
  rest : ℕ
  deriving DecidableEq, Repr

/-- The two process-wide mutable variables: `userSession` (line 41) and
`sessionSecrets` (line 42).  `null` is `none`. -/
structure CLIState where
  userSession : Option Session
  sessionSecrets : Option SessionSecrets
  deriving DecidableEq, Repr

/-- `userSession.session || userSession.authentication` — object-valued
fields, so `||` selects the first present one. -/
def jsOrCtx (a b : Option AuthContext) : Option AuthContext :=
  if a.isSome then a else b

/-! ### Data model: SDK request/response shapes -/

/-- Inert signable payload from `createPaymentIntent` (never inspected). -/
structure TransactionPayload where
  tag : ℕ
  deriving DecidableEq, Repr

/-- Inert signed payload from `sign` (never inspected). -/
structure SignedPayload where
  tag : ℕ
  deriving DecidableEq, Repr

/-- Inert prepared payload from `prepareArbitraryTransaction` (never
inspected beyond presence). -/
structure PreparedPayload where
  tag : ℕ
  deriving DecidableEq, Repr

/-- One entry of `balancesResponse.data.tokens`.  `amount` is the numeric
value `Number(token.amount)` yields on it; `amount_decimal` and `decimals`
are optional numeric fields.  The claims about this flow concern which field
is selected, so the binary64 rounding of the display division is abstracted
and values are tracked exactly. -/
structure TokenEntry where
  symbol : Option String
  name : Option String
  amount : ℤ
  amount_decimal : Option Frac
  decimals : Option ℕ
  deriving DecidableEq, Repr

/-- `balancesResponse.data`. -/
structure BalancesData where
  tokens : Option (List TokenEntry)
  sol : Option Frac
  deriving DecidableEq, Repr

/-- Result of `getAccountBalances`. -/
structure BalancesResponse where
  success : Bool
  error : Option String
  data : Option BalancesData
  deriving DecidableEq, Repr

/-- The nested `data` object of a send/sign-and-send response. -/
structure SigData where
  signature : Option String
  deriving DecidableEq, Repr

/-- A send / sign-and-send response: the three places the code looks for a
transaction signature, plus the optional `confirmed_at`. -/
structure SignatureResponse where
  transaction_signature : Option String
  signature : Option String
  confirmed_at : Option String
  data : Option SigData
  deriving DecidableEq, Repr

/-- The payment-intent request built at lines 370–383 (nested `source` and
`destination` objects are flattened into prefixed fields). -/
structure PaymentIntentRequest where
  amount : String
  grid_user_id : Option String
  source_account : String
  source_currency : String
  source_payment_rail : String
  destination_address : String
  destination_currency : String
  destination_payment_rail : String
  deriving DecidableEq, Repr

/-- `paymentIntentResponse.data`. -/
structure PaymentIntentData where
  transactionPayload : Option TransactionPayload
  deriving DecidableEq, Repr

/-- Result of `createPaymentIntent`. -/
structure PaymentIntentResponse where
  data : Option PaymentIntentData
  error : Option String
  deriving DecidableEq, Repr

/-- Result of `prepareArbitraryTransaction`. -/
structure PrepareResponse where
  data : Option PreparedPayload
  error : Option String
  deriving DecidableEq, Repr

/-- The `SystemProgram.transfer` instruction built at lines 520–524. -/
structure TransferInstruction where
  fromPubkey : String
  toPubkey : String
  lamports : ℤ
  deriving DecidableEq, Repr

/-- The locally built Solana transaction (lines 534–539). -/
structure SolTransaction where
  recentBlockhash : String
  feePayer : String
  instructions : List TransferInstruction
  deriving DecidableEq, Repr

/-- The raw payload handed to `prepareArbitraryTransaction` (lines 555–557).
The base64 serialization performed by `@solana/web3.js` is out of scope and
abstracted as the transaction value itself. -/
structure RawTransactionPayload where
  transaction : SolTransaction
  deriving DecidableEq, Repr

/-- The `user` argument passed to the auth-completion calls: the stored
session object when one exists, else the minimal `{ email, signers: [] }`. -/
inductive UserContext where
  | fromSession (s : Session)
  | minimal (email : String)
  deriving DecidableEq, Repr

/-- One SDK (`gridClient`) or RPC (`solanaConnection`) operation, recorded
with the arguments the code passes. -/
inductive NetworkCall where
  | initAuth (email : String)
  | createAccount (email : String)
  | generateSessionSecrets
  | completeAuth (otpCode : String) (secrets : SessionSecrets) (user : UserContext)
  | completeAuthAndCreateAccount (otpCode : String) (secrets : SessionSecrets) (user : UserContext)
  | getAccountBalances (address : String)
  | createPaymentIntent (address : String) (request : PaymentIntentRequest)
  | sign (secrets : SessionSecrets) (session : Option AuthContext) (payload : TransactionPayload)
  | send (payload : SignedPayload) (address : String)
  | getLatestBlockhash
  | prepareArbitraryTransaction (address : String) (payload : RawTransactionPayload)
  | signAndSend (secrets : SessionSecrets) (session : Option AuthContext)
      (payload : PreparedPayload) (address : String)
  deriving DecidableEq, Repr

/-- The environment a flow runs against: configuration, interactive inputs,
and the oracle answers of the external collaborators.  A `.error e` answer
models the SDK call throwing with message `e`; `.ok` carries the resolved
value (`Option` where the code checks the response for null). -/
structure GridEnv where
  debugMode : Bool
  gridEnvironment : String
  isValidSolanaAddress : String → Bool
  otpInput : String
  recipientAttempts : List String
  amountAttempts : List String
  generateSessionSecretsResp : Except String SessionSecrets
  completeAuthResp : Except String (Option Session)
  completeAuthAndCreateAccountResp : Except String (Option Session)
  getAccountBalancesResp : Except String BalancesResponse
  createPaymentIntentResp : Except String PaymentIntentResponse
  signResp : Except String SignedPayload
  sendResp : Except String (Option SignatureResponse)
  getLatestBlockhashResp : Except String String
  prepareArbitraryTransactionResp : Except String PrepareResponse
  signAndSendResp : Except String (Option SignatureResponse)

/-- What a flow invocation produces: the console lines printed, the SDK/RPC
calls issued (in order), and the resulting process state. -/
structure FlowOut where
  output : List String
  calls : List NetworkCall
  state : CLIState
  deriving DecidableEq, Repr

/-! ### Logging, URL and conversion helpers -/

/-- `simpleLog` (lines 52–56): printed only outside debug mode. -/
def simpleLog (debugMode : Bool) (message : String) : List String :=
  if debugMode then [] else [message]

/-- `debugLog` (lines 46–50): printed only in debug mode. -/
def debugLog (debugMode : Bool) (message : String) : List String :=
  if debugMode then [message] else []

/-- `getExplorerUrl` (lines 58–61). -/
def getExplorerUrl (gridEnvironment signature : String) : String :=
  "https://explorer.solana.com/tx/" ++ signature ++ "?cluster=" ++
    (if gridEnvironment = "sandbox" then "devnet" else "mainnet-beta")

/-- Line 356: `Math.floor(parseFloat(amount) * 1_000_000)` under binary64
arithmetic (the factor is exactly representable). -/
def usdcBaseUnits (amount : String) : ℤ :=
  jsFloorInt (jsMul (jsParseFloat amount) (.finite ⟨1000000, 1⟩))

/-- Line 511: `Math.floor(parseFloat(amount) * LAMPORTS_PER_SOL)` with
`LAMPORTS_PER_SOL = 1_000_000_000` under binary64 arithmetic. -/
def solLamports (amount : String) : ℤ :=
  jsFloorInt (jsMul (jsParseFloat amount) (.finite ⟨1000000000, 1⟩))

/-- Line 400: the signing context the USDC flow hands to `sign`:
`userSession.session || userSession.authentication`. -/
def usdcSigningContext (us : Session) : Option AuthContext :=
  jsOrCtx us.session us.authentication

/-! ### Signature extraction (lines 411–418 and 652–659) -/

/-- Lines 411–418 (USDC flow): `transaction_signature` first, then
`signature || data?.signature`; `null` when none of them is truthy (also
when the whole response is null). -/
def extractUsdcSignature : Option SignatureResponse → Option String
  | none => none
  | some r =>
    if truthyS r.transaction_signature then r.transaction_signature
    else if truthyS (jsOrS r.signature (r.data.bind SigData.signature)) then
      jsOrS r.signature (r.data.bind SigData.signature)
    else none

/-- Lines 652–659 (SOL flow): `signature` first, then
`transaction_signature || data?.signature`; `null` when none is truthy. -/
def extractSolSignature : Option SignatureResponse → Option String
  | none => none
  | some r =>
    if truthyS r.signature then r.signature
    else if truthyS (jsOrS r.transaction_signature (r.data.bind SigData.signature)) then
      jsOrS r.transaction_signature (r.data.bind SigData.signature)
    else none

/-! ### Balance display (line 297 / line 303) -/

/-- `token.decimals || 6`: a numeric field, so `0` is falsy and also falls
back to the default. -/
def jsOrNat (a : Option ℕ) (d : ℕ) : ℕ :=
  match a with
  | some n => if n ≠ 0 then n else d
  | none => d

/-- Line 297 (and identically line 303):
`token.amount_decimal || (Number(token.amount) / Math.pow(10, token.decimals || 6))`.
The division is tracked exactly (its binary64 rounding is irrelevant to
which branch and exponent are selected). -/
def tokenBalance (t : TokenEntry) : Frac :=
  if truthyFrac t.amount_decimal then t.amount_decimal.getD ⟨0, 1⟩
  else ⟨t.amount, 10 ^ jsOrNat t.decimals 6⟩

/-- Rendering of a numeric value in console output (the decimal number formatting of JavaScript is abstracted; claims concern the value). -/
def renderFrac (f : Frac) : String :=
  toString f.num ++ "/" ++ toString f.den

/-! ### Interactive prompts -/

/-- Outcome of an inquirer `validate` callback: `true` or an error string. -/
inductive PromptCheck where
  | pass
  | fail (message : String)
  deriving DecidableEq, Repr

/-- The recipient-address validator (lines 337–341 and 465–469). -/
def recipientValidate (isValidSolanaAddress : String → Bool) (input : String) : PromptCheck :=
  if jsTrim input = "" then .fail "Please enter a recipient address"
  else if isValidSolanaAddress (jsTrim input) = false then .fail "Please enter a valid Solana address"
  else .pass

/-- The amount validator (lines 347–351 and 475–479): non-empty after
trimming, then `validateAmount` on the trimmed input. -/
def amountValidate (tokenType : TokenType) (input : String) : PromptCheck :=
  if jsTrim input = "" then .fail "Please enter an amount"
  else
    let validation := validateAmount (jsTrim input) tokenType
    if validation.valid then .pass else .fail (validation.error.getD "")

/-- inquirer re-prompts until the validator accepts: the answer is the first
attempted input that passes (the raw input, not the trimmed one).  `none`
means the user never supplies a valid input; the flow then never proceeds
past the prompt, which the model renders as ending with the effects issued
so far. -/
def firstValid (attempts : List String) (check : String → PromptCheck) : Option String :=
  attempts.find? (fun a => check a = .pass)

/-! ### `verifyOtp` (lines 207–269) -/

/-- The OTP-verification step.  The OTP prompt has no validator, so the
first input is taken.  `sessionSecrets` is assigned the freshly generated
secrets *before* the completion call; the `catch` at lines 265–268 only
reports, so a later failure leaves that assignment in place. -/
def verifyOtp (env : GridEnv) (email : String) (isNewUser : Bool) (st : CLIState) : FlowOut :=
  let otp := env.otpInput
  match env.generateSessionSecretsResp with
  | .error e =>
      ⟨["OTP verification failed: " ++ e, "Error details: " ++ e],
       [.generateSessionSecrets], st⟩
  | .ok secrets =>
    let st1 : CLIState := { st with sessionSecrets := some secrets }
    let user : UserContext :=
      if isNewUser then .minimal email
      else
        match st.userSession with
        | some us => .fromSession us
        | none => .minimal email
    let authCall : NetworkCall :=
      if isNewUser then .completeAuthAndCreateAccount otp secrets user
      else .completeAuth otp secrets user
    let authResp := if isNewUser then env.completeAuthAndCreateAccountResp else env.completeAuthResp
    let successLine := if isNewUser then "Registration successful!" else "Login successful!"
    match authResp with
    | .error e =>
        ⟨["OTP verification failed: " ++ e, "Error details: " ++ e],
         [.generateSessionSecrets, authCall], st1⟩
    | .ok none =>
        ⟨[successLine,
          "OTP verification failed: Authentication completed, but no session data was returned.",
          "Error details: Authentication completed, but no session data was returned."],
         [.generateSessionSecrets, authCall], st1⟩
    | .ok (some sess) =>
        let st2 : CLIState := { st1 with userSession := some sess }
        let accountAddress := jsOrS sess.smart_account_address sess.address
        ⟨[successLine] ++
          simpleLog env.debugMode "✅ Login successful!" ++
          debugLog env.debugMode "User session created." ++
          (if truthyS accountAddress then
            simpleLog env.debugMode ("🏦 Account: " ++ accountAddress.getD "") ++
            debugLog env.debugMode ("Account address: " ++ accountAddress.getD "")
          else []) ++
          debugLog env.debugMode "Session structure:",
         [.generateSessionSecrets, authCall], st2⟩

/-! ### `checkBalance` (lines 271–320) -/

/-- The body of the balance query flow past the login guard: the console
lines and calls it produces.  The source of this flow contains no assignment
to `userSession` or `sessionSecrets`, which the factoring makes explicit. -/
def checkBalanceBody (env : GridEnv) (us : Session) : List String × List NetworkCall :=
    let accountAddress := jsOrS us.smart_account_address us.address
    if truthyS accountAddress = false then
      ⟨["No account address found in session"], []⟩
    else
      let addr := accountAddress.getD ""
      let head := ["Fetching balance for account: " ++ addr]
      match env.getAccountBalancesResp with
      | .error e =>
          ⟨head ++ ["Failed to fetch balance: " ++ e], [.getAccountBalances addr]⟩
      | .ok balancesResponse =>
        if balancesResponse.success = false then
          ⟨head ++ ["Failed to fetch balance: " ++ renderOptS balancesResponse.error],
       [.getAccountBalances addr]⟩
        else
          let tokensOut : List String :=
            match balancesResponse.data.bind BalancesData.tokens with
            | some tokens =>
                ["Found " ++ toString tokens.length ++ " token(s):"] ++
                tokens.map (fun t =>
                  "  " ++ jsOrStr t.symbol "Unknown" ++ ": " ++ renderFrac (tokenBalance t) ++
                  " (" ++ jsOrStr t.name "Unknown token" ++ ")") ++
                (match tokens.find? (fun b => b.symbol = some "USDC") with
                 | some usdcBalance =>
                     ["\n💰 Your USDC balance is: " ++ renderFrac (tokenBalance usdcBalance) ++ " USDC"]
                 | none => ["\n⚠️ No USDC balance found for this account."])
            | none => ["No token balances found for this account."]
          let solField := balancesResponse.data.bind BalancesData.sol
          let solOut : List String :=
            if truthyFrac solField then
              ["SOL balance: " ++ renderFrac (solField.getD ⟨0, 1⟩) ++ " SOL"]
            else []
          ⟨head ++ tokensOut ++ solOut, [.getAccountBalances addr]⟩

/-- The balance query flow (lines 271–320).  The guard at 272–275 prints
the login reminder; past it, the flow only reads the state. -/
def checkBalance (env : GridEnv) (st : CLIState) : FlowOut :=
  match st.userSession with
  | none => ⟨["Please log in first."], [], st⟩
  | some us => ⟨(checkBalanceBody env us).1, (checkBalanceBody env us).2, st⟩

/-! ### `transferTokens` (lines 322–443, the USDC flow) -/

/-- The body of the USDC transfer flow past the login guard.  The source of
this flow contains no assignment to `userSession` or `sessionSecrets`, which
the factoring makes explicit. -/
def transferTokensBody (env : GridEnv) (us : Session) (secrets : SessionSecrets) :
    List String × List NetworkCall :=
    match firstValid env.recipientAttempts (recipientValidate env.isValidSolanaAddress) with
    | none => ⟨[], []⟩
    | some recipientAddress =>
      match firstValid env.amountAttempts (amountValidate .USDC) with
      | none => ⟨[], []⟩
      | some amount =>
        let amountInBaseUnits := usdcBaseUnits amount
        let accountAddress := jsOrS us.smart_account_address us.address
        if truthyS accountAddress = false then
          ⟨["No account address found in session"], []⟩
        else
          let addr := accountAddress.getD ""
          let intro := simpleLog env.debugMode "💸 Creating USDC payment intent..." ++
                       debugLog env.debugMode "Creating USDC payment intent..."
          let req : PaymentIntentRequest :=
            { amount := toString amountInBaseUnits
              grid_user_id := us.grid_user_id
              source_account := addr
              source_currency := "usdc"
              source_payment_rail := "smart_account"
              destination_address := recipientAddress
              destination_currency := "usdc"
              destination_payment_rail := "smart_account" }
          match env.createPaymentIntentResp with
          | .error e =>
              ⟨intro ++ ["❌ USDC transfer failed: " ++ e] ++
                debugLog env.debugMode ("Error details: " ++ e),
               [.createPaymentIntent addr req]⟩
          | .ok paymentIntentResponse =>
            match paymentIntentResponse.data.bind PaymentIntentData.transactionPayload with
            | none =>
                let msg := "Failed to create payment intent: " ++
                  jsOrStr paymentIntentResponse.error "Response did not contain transaction payload"
                ⟨intro ++ ["❌ USDC transfer failed: " ++ msg] ++
                  debugLog env.debugMode ("Error details: " ++ msg),
                 [.createPaymentIntent addr req]⟩
            | some transactionPayload =>
              let signing := simpleLog env.debugMode "✍️ Signing USDC transaction..." ++
                             debugLog env.debugMode "Payment intent created. Signing transaction..."
              let signCall := NetworkCall.sign secrets (usdcSigningContext us) transactionPayload
              match env.signResp with
              | .error e =>
                  ⟨intro ++ signing ++ ["❌ USDC transfer failed: " ++ e] ++
                    debugLog env.debugMode ("Error details: " ++ e),
                   [.createPaymentIntent addr req, signCall]⟩
              | .ok signedPayload =>
                let sending := simpleLog env.debugMode "📤 Sending USDC transaction..." ++
                               debugLog env.debugMode "Transaction signed. Sending..."
                let calls := [NetworkCall.createPaymentIntent addr req, signCall,
                              .send signedPayload addr]
                match env.sendResp with
                | .error e =>
                    ⟨intro ++ signing ++ sending ++ ["❌ USDC transfer failed: " ++ e] ++
                      debugLog env.debugMode ("Error details: " ++ e),
                     calls⟩
                | .ok signatureResponse =>
                  match extractUsdcSignature signatureResponse with
                  | some txSignature =>
                      let confirmedLine : List String :=
                        match signatureResponse with
                        | some r =>
                            if truthyS r.confirmed_at then
                              debugLog env.debugMode ("⏰ Confirmed at: " ++ renderOptS r.confirmed_at)
                            else []
                        | none => []
                      ⟨intro ++ signing ++ sending ++
                        simpleLog env.debugMode "✅ USDC transfer successful!" ++
                        simpleLog env.debugMode ("💰 Sent " ++ amount ++ " USDC to " ++ recipientAddress) ++
                        simpleLog env.debugMode
                          ("🔗 View transaction: " ++ getExplorerUrl env.gridEnvironment txSignature) ++
                        debugLog env.debugMode ("✅ Transaction successful! Signature: " ++ txSignature) ++
                        debugLog env.debugMode ("📊 Sent " ++ amount ++ " USDC to " ++ recipientAddress) ++
                        confirmedLine,
                       calls⟩
                  | none =>
                      ⟨intro ++ signing ++ sending ++
                        ["✅ Transaction submitted successfully, but signature format is unexpected."] ++
                        debugLog env.debugMode "Received response:",
                       calls⟩

/-- The USDC transfer flow (lines 322–443).  The guard at 323–326 prints the
login reminder; past it, the flow only reads the state. -/
def transferTokens (env : GridEnv) (st : CLIState) : FlowOut :=
  match st.userSession, st.sessionSecrets with
  | some us, some secrets =>
      ⟨(transferTokensBody env us secrets).1, (transferTokensBody env us secrets).2, st⟩
  | _, _ => ⟨["Please log in first."], [], st⟩

/-! ### `transferSOLArbitrary` (lines 445–681, the SOL flow) -/

/-- The body of the SOL transfer flow past the login guard.  Debug-mode
diagnostic dumps that print several lines of session/transaction details are
summarized by their heading line.  The source of this flow contains no
assignment to `userSession` or `sessionSecrets`, which the factoring makes
explicit. -/
def transferSOLArbitraryBody (env : GridEnv) (us : Session) (secrets : SessionSecrets) :
    List String × List NetworkCall :=
    let sessionInfo := debugLog env.debugMode "🔐 Session Info:"
    match firstValid env.recipientAttempts (recipientValidate env.isValidSolanaAddress) with
    | none => ⟨sessionInfo, []⟩
    | some recipientAddress =>
      match firstValid env.amountAttempts (amountValidate .SOL) with
      | none => ⟨sessionInfo, []⟩
      | some amount =>
        let accountAddress := jsOrS us.smart_account_address us.address
        if truthyS accountAddress = false then
          ⟨sessionInfo ++ ["No account address found in session"], []⟩
        else
          let addr := accountAddress.getD ""
          let addressAnalysis := debugLog env.debugMode "🏦 Address Analysis:"
          let intro := simpleLog env.debugMode "🔧 Creating SOL transfer transaction..." ++
                       debugLog env.debugMode "Creating arbitrary SOL transfer transaction..." ++
                       debugLog env.debugMode "📊 Transaction Details:"
          let lamports := solLamports amount
          let transferInstruction : TransferInstruction := ⟨addr, recipientAddress, lamports⟩
          let created := debugLog env.debugMode "✅ Transfer instruction created"
          let preparing := simpleLog env.debugMode "🔗 Preparing transaction..." ++
                           debugLog env.debugMode "🔗 Fetching recent blockhash..."
          let pre := sessionInfo ++ addressAnalysis ++ intro ++ created ++ preparing
          match env.getLatestBlockhashResp with
          | .error e =>
              ⟨pre ++ ["❌ SOL transfer failed: " ++ e] ++
                debugLog env.debugMode ("Error details: " ++ e),
               [.getLatestBlockhash]⟩
          | .ok blockhash =>
            let transaction : SolTransaction := ⟨blockhash, addr, [transferInstruction]⟩
            let rawTransactionPayload : RawTransactionPayload := ⟨transaction⟩
            let built := debugLog env.debugMode "✅ Transaction created with Grid account as fee payer" ++
                         debugLog env.debugMode "✅ Transaction serialized" ++
                         debugLog env.debugMode "Raw transaction created, preparing with Grid SDK..." ++
                         simpleLog env.debugMode "🔄 Preparing transaction with Grid..." ++
                         debugLog env.debugMode "🔄 Calling prepareArbitraryTransaction..."
            match env.prepareArbitraryTransactionResp with
            | .error e =>
                ⟨pre ++ built ++
                  debugLog env.debugMode ("❌ prepareArbitraryTransaction failed: " ++ e) ++
                  ["❌ SOL transfer failed: " ++ e] ++
                  debugLog env.debugMode ("Error details: " ++ e),
                 [.getLatestBlockhash, .prepareArbitraryTransaction addr rawTransactionPayload]⟩
            | .ok prepareResponse =>
              let prepDetails := debugLog env.debugMode "📋 Prepare Response Details:"
              match prepareResponse.data with
              | none =>
                  let msg := "Failed to prepare transaction: " ++
                    jsOrStr prepareResponse.error "No data in response"
                  ⟨pre ++ built ++ prepDetails ++ ["❌ SOL transfer failed: " ++ msg] ++
                    debugLog env.debugMode ("Error details: " ++ msg),
                   [.getLatestBlockhash, .prepareArbitraryTransaction addr rawTransactionPayload]⟩
              | some transactionPayload =>
                let executing := debugLog env.debugMode "✅ Transaction prepared successfully" ++
                                 simpleLog env.debugMode "📤 Executing SOL transaction..." ++
                                 debugLog env.debugMode "📤 Executing transaction with Grid SDK..." ++
                                 debugLog env.debugMode "🔧 Session details:"
                let calls := [NetworkCall.getLatestBlockhash,
                              .prepareArbitraryTransaction addr rawTransactionPayload,
                              .signAndSend secrets us.authentication transactionPayload addr]
                match env.signAndSendResp with
                | .error e =>
                    ⟨pre ++ built ++ prepDetails ++ executing ++
                      debugLog env.debugMode ("❌ signAndSend failed: " ++ e) ++
                      ["❌ SOL transfer failed: " ++ e] ++
                      debugLog env.debugMode ("Error details: " ++ e),
                     calls⟩
                | .ok executedTx =>
                  match extractSolSignature executedTx with
                  | some txSignature =>
                      ⟨pre ++ built ++ prepDetails ++ executing ++
                        simpleLog env.debugMode "✅ SOL transfer successful!" ++
                        simpleLog env.debugMode ("💰 Sent " ++ amount ++ " SOL to " ++ recipientAddress) ++
                        simpleLog env.debugMode
                          ("🔗 View transaction: " ++ getExplorerUrl env.gridEnvironment txSignature) ++
                        debugLog env.debugMode
                          ("✅ Arbitrary transaction successful! Signature: " ++ txSignature) ++
                        debugLog env.debugMode ("📊 Sent " ++ amount ++ " SOL to " ++ recipientAddress),
                       calls⟩
                  | none =>
                      ⟨pre ++ built ++ prepDetails ++ executing ++
                        ["✅ Transaction submitted successfully, but signature format is unexpected."] ++
                        debugLog env.debugMode "Received response:",
                       calls⟩

/-- The SOL transfer flow (lines 445–681).  The guard at 446–449 prints the
login reminder; past it, the flow only reads the state. -/
def transferSOLArbitrary (env : GridEnv) (st : CLIState) : FlowOut :=
  match st.userSession, st.sessionSecrets with
  | some us, some secrets =>
      ⟨(transferSOLArbitraryBody env us secrets).1, (transferSOLArbitraryBody env us secrets).2, st⟩
  | _, _ => ⟨["Please log in first."], [], st⟩

/-! ### Configuration and startup (lines 20–36, 95–122, 725–731) -/

/-- The environment variables the configuration reads. -/
structure ProcessEnv where
  gridEnvironmentVar : Option String
  gridSandboxApiKey : Option String
  gridProductionApiKey : Option String
  deriving DecidableEq, Repr

/-- Line 20: `process.env.GRID_ENVIRONMENT || 'sandbox'`. -/
def gridEnvironmentOf (e : ProcessEnv) : String :=
  jsOrStr e.gridEnvironmentVar "sandbox"

/-- Line 27: the API key matching the selected environment. -/
def gridApiKeyOf (e : ProcessEnv) : Option String :=
  if gridEnvironmentOf e = "production" then e.gridProductionApiKey else e.gridSandboxApiKey

/-- Either the process exited during the module-level key check, or it
proceeds to `main` with a resolved key. -/
inductive StartupResult where
  | fatalExit (code : ℕ) (output : List String)
  | ready (apiKey : String) (gridEnvironment : String)
  deriving DecidableEq, Repr

/-- Lines 30–36: `if (!GRID_API_KEY) { console.error(...); process.exit(1) }`.
The check runs at module level, before `main` is reached. -/
def startup (e : ProcessEnv) : StartupResult :=
  if truthyS (gridApiKeyOf e) = false then
    .fatalExit 1
      ["❌ ERROR: Missing API key for environment: " ++ (gridEnvironmentOf e).toUpper,
       "📝 Please set the following environment variable:",
       "   " ++ (if gridEnvironmentOf e = "production" then "GRID_PRODUCTION_API_KEY"
                 else "GRID_SANDBOX_API_KEY"),
       "💡 Copy .env.example to .env and add your API keys"]
  else .ready ((gridApiKeyOf e).getD "") (gridEnvironmentOf e)

/-- `gridClient` and `solanaConnection` are constructed inside `main`
(lines 725–731), which runs only when the module-level check did not exit. -/
def clientHandlesConstructed : StartupResult → Bool
  | .fatalExit _ _ => false
  | .ready _ _ => true

/-! ### The claim-side reading of the balance formula (for C6) -/

/-- The balance formula as the specification words it: prefer
`amount_decimal` whenever the field is *present*, and use `6` for the
exponent only when `decimals` is *unspecified*.  Stated for comparison with
`tokenBalance`, which is translated from the code and keys on JavaScript
truthiness instead. -/
def tokenBalanceClaimed (t : TokenEntry) : Frac :=
  match t.amount_decimal with
  | some d => d
  | none => ⟨t.amount, 10 ^ t.decimals.getD 6⟩

/-! ### Sample data for concrete runs -/

/-- A signing context stored under the `session` field of the session. -/
def sampleCtxA : AuthContext := ⟨0⟩

/-- A signing context stored under the `authentication` field of the session. -/
def sampleCtxB : AuthContext := ⟨1⟩

/-- Concrete session secrets. -/
def sampleSecrets : SessionSecrets := ⟨7⟩

/-- A concrete stored session with a smart-account address. -/
def sampleSession : Session :=
  { smart_account_address := some "ADDR1"
    address := none
    grid_user_id := some "user-1"
    session := some sampleCtxA
    authentication := some sampleCtxB
    rest := 0 }

/-- A concrete environment in which every collaborator call succeeds. -/
def sampleEnv : GridEnv :=
  { debugMode := false
    gridEnvironment := "sandbox"
    isValidSolanaAddress := fun _ => true
    otpInput := "123456"
    recipientAttempts := ["ADDR2"]
    amountAttempts := ["0.0000000001"]
    generateSessionSecretsResp := .ok sampleSecrets
    completeAuthResp := .ok (some sampleSession)
    completeAuthAndCreateAccountResp := .ok (some sampleSession)
    getAccountBalancesResp := .ok ⟨true, none, some ⟨some [], none⟩⟩
    createPaymentIntentResp := .ok ⟨some ⟨some ⟨3⟩⟩, none⟩
    signResp := .ok ⟨4⟩
    sendResp := .ok (some ⟨some "SIG", none, none, none⟩)
    getLatestBlockhashResp := .ok "BLOCKHASH"
    prepareArbitraryTransactionResp := .ok ⟨some ⟨5⟩, none⟩
    signAndSendResp := .ok (some ⟨none, some "SIG2", none, none⟩) }

/-- `sampleEnv`, but the OTP completion call fails (a wrong code). -/
def otpFailEnv : GridEnv := { sampleEnv with completeAuthResp := .error "Invalid OTP" }

/-- `sampleEnv`, but the only amount the user ever types is `"-5"`. -/
def badAmountEnv : GridEnv := { sampleEnv with amountAttempts := ["-5"] }

/-- `sampleEnv`, but the amount typed is `"4.1"`. -/
def usdcEnv41 : GridEnv := { sampleEnv with amountAttempts := ["4.1"] }

/-- A send response carrying conflicting `transaction_signature` and
`signature` fields. -/
def conflictingResponse : SignatureResponse :=
  { transaction_signature := some "SIGA"
    signature := some "SIGB"
    confirmed_at := none
    data := none }

/-- A token entry whose `decimals` field is present but `0`. -/
def zeroDecimalsToken : TokenEntry :=
  { symbol := some "WHOLE", name := none, amount := 5, amount_decimal := none, decimals := some 0 }

/-! ## Claim theorems -/

/-- C2: with no stored session (`userSession = null`), the balance flow, the
USDC transfer flow and the SOL transfer flow each print exactly
`Please log in first.`, issue no SDK or RPC call, and leave the state
unchanged, for every environment. -/
theorem no_session_short_circuit (env : GridEnv) (st : CLIState)
    (h : st.userSession = none) :
    (checkBalance env st).output = ["Please log in first."] ∧
    (checkBalance env st).calls = [] ∧
    (checkBalance env st).state = st ∧
    (transferTokens env st).output = ["Please log in first."] ∧
    (transferTokens env st).calls = [] ∧
    (transferTokens env st).state = st ∧
    (transferSOLArbitrary env st).output = ["Please log in first."] ∧
    (transferSOLArbitrary env st).calls = [] ∧
    (transferSOLArbitrary env st).state = st := by
  rcases st with ⟨us, ss⟩
  cases us with
  | none => exact ⟨rfl, rfl, rfl, rfl, rfl, rfl, rfl, rfl, rfl⟩
  | some u => exact Option.noConfusion h

/-- Witness for C2 at a concrete environment and the empty state. -/
theorem no_session_short_circuit_witness :
    (checkBalance sampleEnv ⟨none, none⟩).output = ["Please log in first."] ∧
    (checkBalance sampleEnv ⟨none, none⟩).calls = [] ∧
    (checkBalance sampleEnv ⟨none, none⟩).state = ⟨none, none⟩ ∧
    (transferTokens sampleEnv ⟨none, none⟩).output = ["Please log in first."] ∧
    (transferTokens sampleEnv ⟨none, none⟩).calls = [] ∧
    (transferTokens sampleEnv ⟨none, none⟩).state = ⟨none, none⟩ ∧
    (transferSOLArbitrary sampleEnv ⟨none, none⟩).output = ["Please log in first."] ∧
    (transferSOLArbitrary sampleEnv ⟨none, none⟩).calls = [] ∧
    (transferSOLArbitrary sampleEnv ⟨none, none⟩).state = ⟨none, none⟩ :=
  no_session_short_circuit sampleEnv ⟨none, none⟩ rfl

/-- C10: the balance query flow and both transfer flows never modify the two
process-wide authentication variables, for every environment and state; only
`verifyOtp` (whose state transitions are given by its definition) assigns
them. -/
theorem flows_preserve_auth_variables (env : GridEnv) (st : CLIState) :
    (checkBalance env st).state = st ∧
    (transferTokens env st).state = st ∧
    (transferSOLArbitrary env st).state = st := by
  rcases st with ⟨us, ss⟩
  rcases us with _ | u <;> rcases ss with _ | s <;> exact ⟨rfl, rfl, rfl⟩

/-- Counterexample to C3: a failed OTP verification (secret generation
succeeds, the completion call throws) reports the error and leaves
`userSession` unchanged, but `sessionSecrets` has been overwritten with the
freshly generated secrets — the authentication state is *not* the same as
before the flow. -/
theorem otp_failure_clobbers_secrets :
    (verifyOtp otpFailEnv "a@example.com" false ⟨none, none⟩).output =
      ["OTP verification failed: Invalid OTP", "Error details: Invalid OTP"] ∧
    (verifyOtp otpFailEnv "a@example.com" false ⟨none, none⟩).state.userSession = none ∧
    (verifyOtp otpFailEnv "a@example.com" false ⟨none, none⟩).state.sessionSecrets =
      some sampleSecrets ∧
    (⟨none, none⟩ : CLIState).sessionSecrets ≠ some sampleSecrets := by decide

/-- C3 as amended: on every failing OTP verification the error is reported
and `userSession` is unchanged, and `sessionSecrets` is unchanged exactly
when secret generation itself threw — when generation succeeded and a later
step failed, it holds the freshly generated secrets. -/
theorem otp_failure_reports_and_preserves_session (env : GridEnv) (email : String)
    (isNewUser : Bool) (st : CLIState)
    (h : (∃ e, env.generateSessionSecretsResp = .error e) ∨
         (if isNewUser then env.completeAuthAndCreateAccountResp
          else env.completeAuthResp) = .ok none ∨
         (∃ e, (if isNewUser then env.completeAuthAndCreateAccountResp
                else env.completeAuthResp) = .error e)) :
    (verifyOtp env email isNewUser st).state.userSession = st.userSession ∧
    (verifyOtp env email isNewUser st).state.sessionSecrets =
      (match env.generateSessionSecretsResp with
       | .error _ => st.sessionSecrets
       | .ok s => some s) ∧
    (∃ msg, ("OTP verification failed: " ++ msg) ∈ (verifyOtp env email isNewUser st).output) := by
  rcases hg : env.generateSessionSecretsResp with e | s
  · refine ⟨?_, ?_, ⟨e, ?_⟩⟩ <;> simp [verifyOtp, hg]
  · rcases h with ⟨e, he⟩ | hnull | ⟨e, he⟩
    · rw [hg] at he; exact Except.noConfusion he
    · cases isNewUser <;>
        simp only [if_true, if_false, Bool.false_eq_true, ite_true, ite_false] at hnull <;>
        refine ⟨?_, ?_,
          ⟨"Authentication completed, but no session data was returned.", ?_⟩⟩ <;>
        simp [verifyOtp, hg, hnull]
    · cases isNewUser <;> simp only [if_true, if_false, Bool.false_eq_true, ite_true, ite_false] at he <;>
        refine ⟨?_, ?_, ⟨e, ?_⟩⟩ <;>
        simp [verifyOtp, hg, he]

/-- Witness for the amended C3 at a concrete failing environment. -/
theorem otp_failure_reports_and_preserves_session_witness :
    (verifyOtp otpFailEnv "a@example.com" false ⟨none, none⟩).state.userSession = none ∧
    (verifyOtp otpFailEnv "a@example.com" false ⟨none, none⟩).state.sessionSecrets =
      (match otpFailEnv.generateSessionSecretsResp with
       | .error _ => (⟨none, none⟩ : CLIState).sessionSecrets
       | .ok s => some s) ∧
    (∃ msg, ("OTP verification failed: " ++ msg) ∈
      (verifyOtp otpFailEnv "a@example.com" false ⟨none, none⟩).output) :=
  otp_failure_reports_and_preserves_session otpFailEnv "a@example.com" false ⟨none, none⟩
    (Or.inr (Or.inr ⟨"Invalid OTP", rfl⟩))

/-- The inquirer prompt never resolves when every attempted input fails its
validator. -/
theorem firstValid_eq_none (attempts : List String) (check : String → PromptCheck)
    (h : ∀ a ∈ attempts, check a ≠ .pass) : firstValid attempts check = none := by
  simp only [firstValid, List.find?_eq_none, decide_eq_true_eq]
  exact h

/-- C4: an amount string that does not parse as a positive finite number is
rejected by `validateAmount` for both token types; `"-5"` in particular is
rejected with `Amount must be greater than 0`; and when every prompted
amount fails validation, the transfer flows issue no SDK or RPC call. -/
theorem invalid_amount_rejected (s : String) (env : GridEnv) (st : CLIState)
    (hpos : ∀ f, jsParseFloat s = .finite f → f.num ≤ 0) :
    (validateAmount s .USDC).valid = false ∧
    (validateAmount s .SOL).valid = false ∧
    validateAmount "-5" .USDC = ⟨false, some "Amount must be greater than 0"⟩ ∧
    validateAmount "-5" .SOL = ⟨false, some "Amount must be greater than 0"⟩ ∧
    ((∀ a ∈ env.amountAttempts, amountValidate .USDC a ≠ .pass) →
      (transferTokens env st).calls = []) ∧
    ((∀ a ∈ env.amountAttempts, amountValidate .SOL a ≠ .pass) →
      (transferSOLArbitrary env st).calls = []) := by
  have main : ∀ t, (validateAmount s t).valid = false := by
    intro t
    rcases hp : jsParseFloat s with _ | _ | _ | f
    · simp [validateAmount, hp, jsIsNaN]
    · cases t <;> simp [validateAmount, hp, jsIsNaN, jsLeZero, jsGtNat]
    · simp [validateAmount, hp, jsIsNaN, jsLeZero]
    · have hf := hpos f hp
      simp [validateAmount, hp, jsIsNaN, jsLeZero, fracLeZero, hf]
  refine ⟨main .USDC, main .SOL, by decide, by decide, ?_, ?_⟩
  · intro hall
    have hnone := firstValid_eq_none _ _ hall
    rcases st with ⟨us, ss⟩
    rcases us with _ | u
    · rfl
    rcases ss with _ | sec
    · rfl
    show (transferTokensBody env u sec).2 = []
    rcases hr : firstValid env.recipientAttempts (recipientValidate env.isValidSolanaAddress)
        with _ | r <;>
      simp [transferTokensBody, hr, hnone]
  · intro hall
    have hnone := firstValid_eq_none _ _ hall
    rcases st with ⟨us, ss⟩
    rcases us with _ | u
    · rfl
    rcases ss with _ | sec
    · rfl
    show (transferSOLArbitraryBody env u sec).2 = []
    rcases hr : firstValid env.recipientAttempts (recipientValidate env.isValidSolanaAddress)
        with _ | r <;>
      simp [transferSOLArbitraryBody, hr, hnone]

/-- Witness for C4: `"abc"` (NaN) and `"-5"` are rejected, and a session-ful
flow run in which the only amount ever typed is `"-5"` issues no calls. -/
theorem invalid_amount_rejected_witness :
    (validateAmount "abc" .USDC).valid = false ∧
    (validateAmount "abc" .SOL).valid = false ∧
    validateAmount "-5" .USDC = ⟨false, some "Amount must be greater than 0"⟩ ∧
    validateAmount "-5" .SOL = ⟨false, some "Amount must be greater than 0"⟩ ∧
    (transferTokens badAmountEnv ⟨some sampleSession, some sampleSecrets⟩).calls = [] ∧
    (transferSOLArbitrary badAmountEnv ⟨some sampleSession, some sampleSecrets⟩).calls = [] := by
  have h := invalid_amount_rejected "abc" badAmountEnv ⟨some sampleSession, some sampleSecrets⟩
    (fun f hf => by
      rw [show jsParseFloat "abc" = JSNum.nan from by decide] at hf
      exact JSNum.noConfusion hf)
  exact ⟨h.1, h.2.1, h.2.2.1, h.2.2.2.1, h.2.2.2.2.1 (by decide), h.2.2.2.2.2 (by decide)⟩

/-- Counterexample to C5: on a response that carries both a truthy
`transaction_signature` and a truthy `signature`, the extraction of the USDC
flow and the extraction of the SOL flow pick different fields — the two flows do not
apply the same function with the same preference order. -/
theorem signature_extraction_order_differs :
    extractUsdcSignature (some conflictingResponse) = some "SIGA" ∧
    extractSolSignature (some conflictingResponse) = some "SIGB" ∧
    extractUsdcSignature (some conflictingResponse) ≠
      extractSolSignature (some conflictingResponse) := by decide

/-- C5 as amended: both extractions draw on the same three fields and fail on
exactly the same responses (reporting the unexpected-format outcome without
raising), and they agree whenever `transaction_signature` and `signature`
are not both truthy; their preference orders differ (USDC prefers
`transaction_signature`, SOL prefers `signature`). -/
theorem signature_extraction_agreement (r : Option SignatureResponse) :
    (extractUsdcSignature r = none ↔ extractSolSignature r = none) ∧
    (truthyS (r.bind SignatureResponse.transaction_signature) = false ∨
      truthyS (r.bind SignatureResponse.signature) = false →
      extractUsdcSignature r = extractSolSignature r) := by
  rcases r with _ | r
  · simp [extractUsdcSignature, extractSolSignature]
  · rcases r with ⟨ts, sg, ca, dt⟩
    have hne : ∀ o : Option String, truthyS o = true → o ≠ none := by
      intro o h
      cases o <;> simp_all [truthyS]
    cases h1 : truthyS ts <;> cases h2 : truthyS sg <;>
      cases h3 : truthyS (dt.bind SigData.signature) <;>
      simp_all [extractUsdcSignature, extractSolSignature, jsOrS, Option.bind]

/-- Witness for the amended C5 at a concrete response with only a
`signature` field. -/
theorem signature_extraction_agreement_witness :
    (extractUsdcSignature (some ⟨none, some "S", none, none⟩) = none ↔
      extractSolSignature (some ⟨none, some "S", none, none⟩) = none) ∧
    extractUsdcSignature (some ⟨none, some "S", none, none⟩) =
      extractSolSignature (some ⟨none, some "S", none, none⟩) :=
  ⟨(signature_extraction_agreement (some ⟨none, some "S", none, none⟩)).1,
   (signature_extraction_agreement (some ⟨none, some "S", none, none⟩)).2 (by decide)⟩

/-- Counterexample to C6: a token whose `decimals` field is present but `0`
is displayed with the default exponent 6 (`0` is falsy), not with its
specified exponent — the printed balance is `5/10^6`, not the claimed `5`. -/
theorem token_balance_truthiness_counterexample :
    tokenBalance zeroDecimalsToken = ⟨5, 1000000⟩ ∧
    tokenBalanceClaimed zeroDecimalsToken = ⟨5, 1⟩ ∧
    (tokenBalance zeroDecimalsToken).val ≠ (tokenBalanceClaimed zeroDecimalsToken).val := by
  refine ⟨by decide, by decide, ?_⟩
  rw [show tokenBalance zeroDecimalsToken = (⟨5, 1000000⟩ : Frac) from by decide,
      show tokenBalanceClaimed zeroDecimalsToken = (⟨5, 1⟩ : Frac) from by decide]
  simp only [Frac.val]
  norm_num

/-- C6 as amended: the printed balance prefers `amount_decimal` whenever that
field is truthy (present and non-zero), and otherwise equals
`amount / 10^decimals`, with the exponent defaulting to 6 both when
`decimals` is unspecified and when it is `0`. -/
theorem token_balance_selection (t : TokenEntry) :
    (∀ d, t.amount_decimal = some d → d.num ≠ 0 → tokenBalance t = d) ∧
    (truthyFrac t.amount_decimal = false → ∀ n, t.decimals = some n → n ≠ 0 →
      tokenBalance t = ⟨t.amount, 10 ^ n⟩) ∧
    (truthyFrac t.amount_decimal = false → t.decimals = none ∨ t.decimals = some 0 →
      tokenBalance t = ⟨t.amount, 10 ^ 6⟩) := by
  refine ⟨?_, ?_, ?_⟩
  · intro d hd hnum
    simp [tokenBalance, truthyFrac, hd, hnum]
  · intro hfalse n hn hnz
    simp [tokenBalance, hfalse, jsOrNat, hn, hnz]
  · intro hfalse hdec
    rcases hdec with h | h <;> simp [tokenBalance, hfalse, jsOrNat, h]

/-- Witness for the amended C6 at a token with truthy `decimals = 2`. -/
theorem token_balance_selection_witness :
    tokenBalance ⟨none, none, 3, none, some 2⟩ = ⟨3, 10 ^ 2⟩ :=
  (token_balance_selection ⟨none, none, 3, none, some 2⟩).2.1 (by decide) 2 rfl (by decide)

/-- C7: every `sign` call the USDC flow issues carries the signing context
`userSession.session || userSession.authentication`: the `session` field of
the stored session when present, else its `authentication` field. -/
theorem usdc_sign_uses_session_context (env : GridEnv) (us : Session)
    (secrets s : SessionSecrets) (c : Option AuthContext) (p : TransactionPayload)
    (h : NetworkCall.sign s c p ∈ (transferTokens env ⟨some us, some secrets⟩).calls) :
    c = usdcSigningContext us ∧
    (∀ a, us.session = some a → usdcSigningContext us = some a) ∧
    (us.session = none → usdcSigningContext us = us.authentication) := by
  refine ⟨?_, ?_, ?_⟩
  · have h' : NetworkCall.sign s c p ∈ (transferTokensBody env us secrets).2 := h
    unfold transferTokensBody at h'
    rcases hr : firstValid env.recipientAttempts (recipientValidate env.isValidSolanaAddress)
        with _ | r
    · simp [hr] at h'
    rcases ha : firstValid env.amountAttempts (amountValidate .USDC) with _ | a
    · simp [hr, ha] at h'
    rcases hacc : truthyS (jsOrS us.smart_account_address us.address) with _ | _
    · simp [hr, ha, hacc] at h'
    rcases hpi : env.createPaymentIntentResp with e | pi
    · simp [hr, ha, hacc, hpi] at h'
    rcases hpl : pi.data.bind PaymentIntentData.transactionPayload with _ | pl
    · simp [hr, ha, hacc, hpi, hpl] at h'
    rcases hsg : env.signResp with e | sp
    · simp [hr, ha, hacc, hpi, hpl, hsg] at h'
      exact h'.2.1
    rcases hsd : env.sendResp with e | sr
    · simp [hr, ha, hacc, hpi, hpl, hsg, hsd] at h'
      exact h'.2.1
    · rcases hx : extractUsdcSignature sr with _ | tx <;>
        simp [hr, ha, hacc, hpi, hpl, hsg, hsd, hx] at h' <;>
        exact h'.2.1
  · intro a ha
    simp [usdcSigningContext, jsOrCtx, ha]
  · intro ha
    simp [usdcSigningContext, jsOrCtx, ha]

/-- Witness for C7: in a concrete successful run, the issued `sign` call
carries the `session` field of the stored session. -/
theorem usdc_sign_uses_session_context_witness :
    some sampleCtxA = usdcSigningContext sampleSession ∧
    (∀ a, sampleSession.session = some a → usdcSigningContext sampleSession = some a) ∧
    (sampleSession.session = none →
      usdcSigningContext sampleSession = sampleSession.authentication) :=
  usdc_sign_uses_session_context sampleEnv sampleSession sampleSecrets sampleSecrets
    (some sampleCtxA) ⟨3⟩ (by decide)

/-- C8: whenever the API key matching the selected environment is absent, the
module-level check prints a remediation message and exits with code 1, and
no client handle is constructed. -/
theorem missing_api_key_exits (e : ProcessEnv) (h : gridApiKeyOf e = none) :
    startup e = .fatalExit 1
      ["❌ ERROR: Missing API key for environment: " ++ (gridEnvironmentOf e).toUpper,
       "📝 Please set the following environment variable:",
       "   " ++ (if gridEnvironmentOf e = "production" then "GRID_PRODUCTION_API_KEY"
                 else "GRID_SANDBOX_API_KEY"),
       "💡 Copy .env.example to .env and add your API keys"] ∧
    clientHandlesConstructed (startup e) = false := by
  have ht : truthyS (gridApiKeyOf e) = false := by rw [h]; rfl
  constructor
  · simp [startup, ht]
  · simp [startup, ht, clientHandlesConstructed]

/-- Witness for C8: with no environment variables set at all, the process
exits with code 1 before constructing a client. -/
theorem missing_api_key_exits_witness :
    startup ⟨none, none, none⟩ = .fatalExit 1
      ["❌ ERROR: Missing API key for environment: " ++
        (gridEnvironmentOf ⟨none, none, none⟩).toUpper,
       "📝 Please set the following environment variable:",
       "   " ++ (if gridEnvironmentOf ⟨none, none, none⟩ = "production"
                 then "GRID_PRODUCTION_API_KEY" else "GRID_SANDBOX_API_KEY"),
       "💡 Copy .env.example to .env and add your API keys"] ∧
    clientHandlesConstructed (startup ⟨none, none, none⟩) = false :=
  missing_api_key_exits ⟨none, none, none⟩ rfl

/-- C9: SOL amount validation imposes no lower bound beyond strict positivity
of the parsed value, and the accepted amount `"0.0000000001"` converts to
`0` lamports, so the flow builds and submits a zero-lamport transfer
instruction (visible in the `prepareArbitraryTransaction` payload) and then
signs and sends it. -/
theorem zero_lamport_sol_transfer :
    (∀ s f, jsParseFloat s = .finite f → 0 < f.num → fracGtNat f 10000 = false →
      (validateAmount s .SOL).valid = true) ∧
    (validateAmount "0.0000000001" .SOL).valid = true ∧
    solLamports "0.0000000001" = 0 ∧
    (∃ f, jsParseFloat "0.0000000001" = .finite f ∧ 0 < f.num) ∧
    NetworkCall.prepareArbitraryTransaction "ADDR1"
        ⟨⟨"BLOCKHASH", "ADDR1", [⟨"ADDR1", "ADDR2", 0⟩]⟩⟩ ∈
      (transferSOLArbitrary sampleEnv ⟨some sampleSession, some sampleSecrets⟩).calls ∧
    NetworkCall.signAndSend sampleSecrets (some sampleCtxB) ⟨5⟩ "ADDR1" ∈
      (transferSOLArbitrary sampleEnv ⟨some sampleSession, some sampleSecrets⟩).calls := by
  refine ⟨?_, by decide, by decide,
    ⟨⟨7737125245533627, 77371252455336267181195264⟩, by decide, by decide⟩,
    by decide, by decide⟩
  intro s f hf h0 hle
  have hnle : ¬ f.num ≤ 0 := by omega
  simp [validateAmount, hf, jsIsNaN, jsLeZero, fracLeZero, jsGtNat, hle, hnle]

/-- Witness for the universally quantified part of C9 at the amount `"5"`. -/
theorem zero_lamport_sol_transfer_witness :
    (validateAmount "5" .SOL).valid = true :=
  zero_lamport_sol_transfer.1 "5" ⟨5629499534213120, 1125899906842624⟩
    (by decide) (by decide) (by decide)

/-! ### Accuracy of the binary64 model (supporting lemmas for C1) -/

theorem lgAux_bounds : ∀ fuel n : ℕ, 1 ≤ n → n ≤ fuel →
    2 ^ lgAux fuel n ≤ n ∧ n < 2 ^ (lgAux fuel n + 1) := by
  intro fuel
  induction fuel with
  | zero => intro n h1 h2; omega
  | succ f ih =>
    intro n h1 h2
    by_cases hn : n < 2
    · simp only [lgAux, hn, if_true]
      omega
    · have h12 : 1 ≤ n / 2 := by omega
      have hf : n / 2 ≤ f := by omega
      obtain ⟨l, u⟩ := ih (n / 2) h12 hf
      simp only [lgAux, hn, if_false]
      rw [pow_succ, pow_succ] at *
      generalize hK : 2 ^ lgAux f (n / 2) = K at l u ⊢
      omega

theorem natLog2_bounds (n : ℕ) (h : 1 ≤ n) :
    2 ^ natLog2 n ≤ n ∧ n < 2 ^ (natLog2 n + 1) :=
  lgAux_bounds n n h le_rfl

theorem pow2_eq (k : ℕ) : pow2 k = 2 ^ k := by
  simp [pow2, Nat.shiftLeft_eq]

theorem frac_val_pos (f : Frac) (hnum : 0 < f.num) (hden : 0 < f.den) : 0 < f.val := by
  unfold Frac.val
  have h1 : (0:ℚ) < (f.num : ℚ) := by exact_mod_cast hnum
  have h2 : (0:ℚ) < (f.den : ℚ) := by exact_mod_cast hden
  positivity

theorem fracLePow2_iff (g : ℤ) (f : Frac) (hden : 0 < f.den) :
    (fracLePow2 g f = true) ↔ (2 : ℚ) ^ g ≤ f.val := by
  have hdq : (0:ℚ) < (f.den : ℚ) := by exact_mod_cast hden
  unfold fracLePow2 Frac.val
  by_cases hg : 0 ≤ g
  · simp only [hg, if_true, pow2_eq, decide_eq_true_eq]
    rw [le_div_iff hdq]
    have hcast : (2:ℚ) ^ g = ((2 ^ g.toNat : ℤ) : ℚ) := by
      rw [← Int.toNat_of_nonneg hg, zpow_natCast]
      push_cast
      rw [Int.toNat_of_nonneg hg]
    rw [hcast]
    exact_mod_cast Iff.rfl
  · push_neg at hg
    simp only [if_neg (not_le.mpr hg), pow2_eq, decide_eq_true_eq]
    have hKpos : (0:ℚ) < ((2 ^ (-g).toNat : ℤ) : ℚ) := by positivity
    have hk : (2:ℚ) ^ g = 1 / ((2 ^ (-g).toNat : ℤ) : ℚ) := by
      set k := (-g).toNat with hkdef
      have hgk : g = -(k : ℤ) := by omega
      rw [hgk, zpow_neg, zpow_natCast, one_div]
      norm_cast
    rw [hk, div_le_div_iff hKpos hdq, one_mul]
    constructor
    · intro h
      have h2 : ((f.den : ℤ) : ℚ) ≤ ((f.num * 2 ^ (-g).toNat : ℤ) : ℚ) := by
        exact_mod_cast h
      push_cast at h2 ⊢
      linarith
    · intro h
      have h2 : ((f.den : ℤ) : ℚ) ≤ ((f.num * 2 ^ (-g).toNat : ℤ) : ℚ) := by
        push_cast at h ⊢
        linarith
      exact_mod_cast h2

theorem flog2_bounds (f : Frac) (hnum : 0 < f.num) (hden : 0 < f.den) :
    (2:ℚ) ^ flog2 f ≤ f.val ∧ f.val < (2:ℚ) ^ (flog2 f + 1) := by
  have hdq : (0:ℚ) < (f.den : ℚ) := by exact_mod_cast hden
  have hvpos : 0 < f.val := frac_val_pos f hnum hden
  set a := natLog2 f.num.toNat with ha
  set b := natLog2 f.den with hb
  have hnum1 : 1 ≤ f.num.toNat := by omega
  obtain ⟨la, ua⟩ := natLog2_bounds f.num.toNat hnum1
  obtain ⟨lb, ub⟩ := natLog2_bounds f.den (by omega)
  have hnumq : ((f.num.toNat : ℕ) : ℚ) = (f.num : ℚ) := by
    have : ((f.num.toNat : ℤ)) = f.num := Int.toNat_of_nonneg (le_of_lt hnum)
    exact_mod_cast this
  have hza : (2:ℚ) ^ ((a : ℤ) + 1) = ((2 ^ (a + 1) : ℕ) : ℚ) := by
    rw [show ((a:ℤ) + 1) = (((a + 1 : ℕ)) : ℤ) by push_cast; ring, zpow_natCast]
    push_cast
    ring
  have hzb : (2:ℚ) ^ ((b : ℤ) + 1) = ((2 ^ (b + 1) : ℕ) : ℚ) := by
    rw [show ((b:ℤ) + 1) = (((b + 1 : ℕ)) : ℤ) by push_cast; ring, zpow_natCast]
    push_cast
    ring
  have hzaa : (2:ℚ) ^ ((a : ℤ)) = ((2 ^ a : ℕ) : ℚ) := by
    rw [show ((a:ℤ)) = ((a : ℕ) : ℤ) from rfl, zpow_natCast]
    push_cast
    ring
  have hzbb : (2:ℚ) ^ ((b : ℤ)) = ((2 ^ b : ℕ) : ℚ) := by
    rw [show ((b:ℤ)) = ((b : ℕ) : ℤ) from rfl, zpow_natCast]
    push_cast
    ring
  have huaq : (f.num : ℚ) < (2:ℚ) ^ ((a : ℤ) + 1) := by
    rw [hza, ← hnumq]
    exact_mod_cast ua
  have hlaq : (2:ℚ) ^ ((a : ℤ)) ≤ (f.num : ℚ) := by
    rw [hzaa, ← hnumq]
    exact_mod_cast la
  have hubq : (f.den : ℚ) < (2:ℚ) ^ ((b : ℤ) + 1) := by
    rw [hzb]
    exact_mod_cast ub
  have hlbq : (2:ℚ) ^ ((b : ℤ)) ≤ (f.den : ℚ) := by
    rw [hzbb]
    exact_mod_cast lb
  have hq1 : f.val < (2:ℚ) ^ ((a : ℤ) - b + 1) := by
    rw [Frac.val, div_lt_iff hdq]
    calc (f.num : ℚ) < (2:ℚ) ^ ((a : ℤ) + 1) := huaq
    _ = (2:ℚ) ^ ((a : ℤ) - b + 1) * (2:ℚ) ^ ((b : ℤ)) := by
        rw [← zpow_add₀ (two_ne_zero (α := ℚ))]
        congr 1
        ring
    _ ≤ (2:ℚ) ^ ((a : ℤ) - b + 1) * (f.den : ℚ) := by
        have hp : (0:ℚ) < (2:ℚ) ^ ((a : ℤ) - b + 1) := by positivity
        nlinarith
  have hq2 : (2:ℚ) ^ ((a : ℤ) - b - 1) < f.val := by
    rw [Frac.val, lt_div_iff hdq]
    calc (2:ℚ) ^ ((a : ℤ) - b - 1) * (f.den : ℚ)
        < (2:ℚ) ^ ((a : ℤ) - b - 1) * (2:ℚ) ^ ((b : ℤ) + 1) := by
          have hp : (0:ℚ) < (2:ℚ) ^ ((a : ℤ) - b - 1) := by positivity
          nlinarith
    _ = (2:ℚ) ^ ((a : ℤ)) := by
        rw [← zpow_add₀ (two_ne_zero (α := ℚ))]
        congr 1
        ring
    _ ≤ (f.num : ℚ) := hlaq
  show (2:ℚ) ^ flog2 f ≤ f.val ∧ f.val < (2:ℚ) ^ (flog2 f + 1)
  unfold flog2
  by_cases hc : fracLePow2 ((a : ℤ) - b) f = true
  · simp only [← ha, ← hb, hc, if_true]
    exact ⟨(fracLePow2_iff _ f hden).mp hc, hq1⟩
  · have hub : f.val < (2:ℚ) ^ ((a : ℤ) - b) := by
      by_contra hcon
      push_neg at hcon
      exact hc ((fracLePow2_iff _ f hden).mpr hcon)
    have hc' : fracLePow2 ((a : ℤ) - b) f = false := by
      cases hcc : fracLePow2 ((a : ℤ) - b) f
      · rfl
      · exact absurd hcc hc
    simp only [← ha, ← hb, hc', Bool.false_eq_true, if_false]
    refine ⟨le_of_lt hq2, ?_⟩
    calc f.val < (2:ℚ) ^ ((a : ℤ) - b) := hub
    _ = (2:ℚ) ^ ((a : ℤ) - b - 1 + 1) := by congr 1; ring

theorem roundNE_spec (n d : ℤ) (hd : 0 < d) :
    |((roundNE n d : ℤ) : ℚ) - (n : ℚ) / (d : ℚ)| ≤ 1 / 2 := by
  have hdq : (0:ℚ) < (d : ℚ) := by exact_mod_cast hd
  have hdiv : (n : ℚ) / (d : ℚ) = ((n.ediv d : ℤ) : ℚ) + ((n.emod d : ℤ) : ℚ) / (d : ℚ) := by
    have hdm : d * (n.ediv d) + n.emod d = n := Int.ediv_add_emod n d
    have hdmq : (d:ℚ) * ((n.ediv d : ℤ) : ℚ) + ((n.emod d : ℤ) : ℚ) = (n:ℚ) := by
      exact_mod_cast hdm
    field_simp
    linarith
  have h0 : (0:ℤ) ≤ n.emod d := Int.emod_nonneg n (ne_of_gt hd)
  have hlt : n.emod d < d := Int.emod_lt_of_pos n hd
  have h0q : (0:ℚ) ≤ ((n.emod d : ℤ) : ℚ) / (d : ℚ) := by
    apply div_nonneg _ (le_of_lt hdq)
    exact_mod_cast h0
  have h1q : ((n.emod d : ℤ) : ℚ) / (d : ℚ) < 1 := by
    rw [div_lt_one hdq]
    exact_mod_cast hlt
  unfold roundNE
  by_cases hc1 : 2 * n.emod d < d
  · have : ((n.emod d : ℤ) : ℚ) / (d : ℚ) ≤ 1 / 2 := by
      rw [div_le_div_iff hdq two_pos]
      have : (2:ℚ) * ((n.emod d : ℤ) : ℚ) ≤ (d : ℚ) := by exact_mod_cast le_of_lt hc1
      linarith
    simp only [hc1, if_true]
    rw [hdiv, abs_le]
    constructor <;> linarith
  · have hge : ((n.emod d : ℤ) : ℚ) / (d : ℚ) ≥ 1 / 2 := by
      rw [ge_iff_le, div_le_div_iff two_pos hdq]
      have : (d : ℚ) ≤ (2:ℚ) * ((n.emod d : ℤ) : ℚ) := by
        have := not_lt.mp hc1
        exact_mod_cast this
      linarith
    by_cases hc2 : d < 2 * n.emod d
    · simp only [hc1, if_false, hc2, if_true]
      push_cast
      rw [hdiv, abs_le]
      constructor <;> linarith
    · have heq : 2 * n.emod d = d := by omega
      have h12 : ((n.emod d : ℤ) : ℚ) / (d : ℚ) ≤ 1 / 2 := by
        rw [div_le_div_iff hdq two_pos]
        have : (2:ℚ) * ((n.emod d : ℤ) : ℚ) = (d : ℚ) := by exact_mod_cast heq
        linarith
      by_cases hc3 : (n.ediv d).emod 2 = 0 <;>
        simp only [hc1, if_false, hc2, hc3, if_true] <;>
        push_cast <;>
        rw [hdiv, abs_le] <;>
        constructor <;>
        linarith

theorem roundNE_nonneg (n d : ℤ) (hn : 0 ≤ n) (hd : 0 < d) : 0 ≤ roundNE n d := by
  have hq : 0 ≤ n.ediv d := Int.ediv_nonneg hn (le_of_lt hd)
  unfold roundNE
  by_cases hc1 : 2 * n.emod d < d
  · simpa [hc1]
  · by_cases hc2 : d < 2 * n.emod d
    · simp only [hc1, if_false, hc2, if_true]
      omega
    · by_cases hc3 : (n.ediv d).emod 2 = 0 <;> simp only [hc1, hc2, hc3, if_false, if_true] <;> omega

theorem dyadic_val (m p : ℤ) : (dyadic m p).val = (m : ℚ) * (2:ℚ) ^ p := by
  unfold dyadic Frac.val
  by_cases hp : 0 ≤ p
  · simp only [hp, if_true, pow2_eq]
    push_cast
    rw [show p = ((p.toNat : ℕ) : ℤ) by omega, zpow_natCast]
    push_cast
    rw [Int.toNat_of_nonneg hp]
    field_simp
  · simp only [hp, if_false, pow2_eq]
    set k := (-p).toNat with hkd
    rw [show p = -(k : ℤ) by omega, zpow_neg, zpow_natCast, div_eq_mul_inv]
    push_cast
    ring

theorem dyadic_den_pos (m p : ℤ) : 0 < (dyadic m p).den := by
  unfold dyadic
  by_cases hp : 0 ≤ p <;> simp [hp, pow2_eq]

theorem scaleToInt_nonneg (f : Frac) (p : ℤ) (hnum : 0 ≤ f.num) (hden : 0 < f.den) :
    0 ≤ scaleToInt f p := by
  unfold scaleToInt
  by_cases hp : 0 ≤ p
  · simp only [hp, if_true]
    apply roundNE_nonneg _ _ hnum
    have : (0:ℤ) < (pow2 p.toNat : ℤ) := by
      rw [pow2_eq]; positivity
    positivity
  · simp only [hp, if_false]
    apply roundNE_nonneg
    · have : (0:ℤ) ≤ (pow2 (-p).toNat : ℤ) := by rw [pow2_eq]; positivity
      positivity
    · exact_mod_cast hden

theorem dyadic_num_nonneg (m p : ℤ) (hm : 0 ≤ m) : 0 ≤ (dyadic m p).num := by
  unfold dyadic
  by_cases hp : 0 ≤ p <;> simp only [hp, if_true, if_false]
  · have : (0:ℤ) ≤ (pow2 p.toNat : ℤ) := by rw [pow2_eq]; positivity
    positivity
  · exact hm

theorem scaleToInt_spec (f : Frac) (p : ℤ) (hden : 0 < f.den) :
    |((scaleToInt f p : ℤ) : ℚ) - f.val * (2:ℚ) ^ (-p)| ≤ 1 / 2 := by
  have hdq : (0:ℚ) < (f.den : ℚ) := by exact_mod_cast hden
  unfold scaleToInt
  by_cases hp : 0 ≤ p
  · simp only [hp, if_true]
    have hdp : (0:ℤ) < (f.den : ℤ) * (pow2 p.toNat : ℤ) := by
      rw [pow2_eq]
      have : (0:ℤ) < (f.den : ℤ) := by exact_mod_cast hden
      positivity
    have h := roundNE_spec f.num ((f.den : ℤ) * (pow2 p.toNat : ℤ)) hdp
    have heq : ((f.num : ℤ) : ℚ) / (((f.den : ℤ) * (pow2 p.toNat : ℤ) : ℤ) : ℚ) =
        f.val * (2:ℚ) ^ (-p) := by
      rw [Frac.val, pow2_eq]
      push_cast
      rw [show -p = -((p.toNat : ℕ) : ℤ) by omega, zpow_neg, zpow_natCast]
      rw [div_mul_eq_div_div, div_eq_mul_inv]
    rw [heq] at h
    exact h
  · simp only [hp, if_false]
    have hdp : (0:ℤ) < (f.den : ℤ) := by exact_mod_cast hden
    have h := roundNE_spec (f.num * (pow2 (-p).toNat : ℤ)) (f.den : ℤ) hdp
    have heq : ((f.num * (pow2 (-p).toNat : ℤ) : ℤ) : ℚ) / ((f.den : ℤ) : ℚ) =
        f.val * (2:ℚ) ^ (-p) := by
      rw [Frac.val, pow2_eq]
      push_cast
      set k := (-p).toNat with hkd
      rw [show -p = ((k : ℕ) : ℤ) by omega, zpow_natCast]
      ring
    rw [heq] at h
    exact h

theorem two_zpow_pos (m : ℤ) : (0:ℚ) < 2 ^ m := by positivity

theorem two_zpow_mono {m n : ℤ} (h : m ≤ n) : (2:ℚ) ^ m ≤ (2:ℚ) ^ n :=
  zpow_le_zpow_right₀ (by norm_num) h

theorem flPos_spec (f : Frac) (hnum : 0 < f.num) (hden : 0 < f.den)
    (hlow : (2:ℚ) ^ (-1022 : ℤ) ≤ f.val) :
    |(flPos f).val - f.val| ≤ f.val * (2:ℚ) ^ (-53 : ℤ) ∧
    0 ≤ (flPos f).num ∧ 0 < (flPos f).den := by
  obtain ⟨hl, hu⟩ := flog2_bounds f hnum hden
  have he : -1022 ≤ flog2 f := by
    by_contra hcon
    push_neg at hcon
    have h1 : flog2 f + 1 ≤ -1022 := by omega
    have := lt_of_lt_of_le hu (two_zpow_mono h1)
    linarith
  have hite : ¬ flog2 f < -1022 := not_lt.mpr he
  unfold flPos
  simp only [hite, if_false]
  set e := flog2 f with hedef
  set m := scaleToInt f (e - 52) with hmdef
  refine ⟨?_, dyadic_num_nonneg m (e - 52) (scaleToInt_nonneg f _ (le_of_lt hnum) hden),
    dyadic_den_pos m (e - 52)⟩
  rw [dyadic_val]
  have hsc := scaleToInt_spec f (e - 52) hden
  have hz : (0:ℚ) < (2:ℚ) ^ (e - 52) := two_zpow_pos _
  have hkey : (m : ℚ) * (2:ℚ) ^ (e - 52) - f.val =
      ((m : ℚ) - f.val * (2:ℚ) ^ (-(e - 52))) * (2:ℚ) ^ (e - 52) := by
    rw [sub_mul, mul_assoc, ← zpow_add₀ (two_ne_zero (α := ℚ))]
    norm_num
  rw [hkey, abs_mul, abs_of_pos hz]
  calc |(m : ℚ) - f.val * (2:ℚ) ^ (-(e - 52))| * (2:ℚ) ^ (e - 52)
      ≤ (1 / 2) * (2:ℚ) ^ (e - 52) := by
        apply mul_le_mul_of_nonneg_right hsc (le_of_lt hz)
  _ = (2:ℚ) ^ (e - 53) := by
        rw [show (1:ℚ)/2 = (2:ℚ) ^ (-1 : ℤ) by norm_num, ← zpow_add₀ (two_ne_zero (α := ℚ))]
        congr 1 <;> omega
  _ = (2:ℚ) ^ (e : ℤ) * (2:ℚ) ^ (-53 : ℤ) := by
        rw [← zpow_add₀ (two_ne_zero (α := ℚ))]
        congr 1 <;> omega
  _ ≤ f.val * (2:ℚ) ^ (-53 : ℤ) := by
        apply mul_le_mul_of_nonneg_right hl (le_of_lt (two_zpow_pos _))

theorem frac_num_pos_of_val_pos (f : Frac) (hden : 0 < f.den) (hv : 0 < f.val) :
    0 < f.num := by
  by_contra hcon
  push_neg at hcon
  have hq : (f.num : ℚ) ≤ 0 := by exact_mod_cast hcon
  have hdq : (0:ℚ) < (f.den : ℚ) := by exact_mod_cast hden
  have : f.val ≤ 0 := div_nonpos_of_nonpos_of_nonneg hq (le_of_lt hdq)
  linarith

theorem fl_finite_spec (f : Frac) (hnum : 0 < f.num) (hden : 0 < f.den)
    (hlow : (2:ℚ) ^ (-1022 : ℤ) ≤ f.val) (hhigh : f.val ≤ (2:ℚ) ^ (1000 : ℤ)) :
    ∃ g : Frac, fl f = .finite g ∧ 0 < g.num ∧ 0 < g.den ∧
      |g.val - f.val| ≤ f.val * (2:ℚ) ^ (-53 : ℤ) := by
  obtain ⟨herr, hn0, hd0⟩ := flPos_spec f hnum hden hlow
  have hvpos : 0 < f.val := frac_val_pos f hnum hden
  set ε := (2:ℚ) ^ (-53 : ℤ) with hεdef
  clear_value ε
  have heps : ε ≤ 1 / 2 := by
    rw [hεdef]
    calc (2:ℚ) ^ (-53 : ℤ) ≤ (2:ℚ) ^ (-1 : ℤ) := two_zpow_mono (by omega)
    _ = 1 / 2 := by rw [zpow_neg, zpow_one]; norm_num
  have hm : f.val * ε ≤ f.val * (1 / 2) :=
    mul_le_mul_of_nonneg_left heps (le_of_lt hvpos)
  have hup : (flPos f).val ≤ f.val * 2 := by
    have h1 : (flPos f).val - f.val ≤ f.val * ε := (abs_le.mp herr).2
    linarith
  have hnoofl : fracLePow2 1024 (flPos f) = false := by
    by_contra hcon
    have htrue : fracLePow2 1024 (flPos f) = true := by
      cases hc : fracLePow2 1024 (flPos f)
      · exact absurd hc hcon
      · rfl
    have hge := (fracLePow2_iff 1024 (flPos f) hd0).mp htrue
    have : f.val * 2 ≤ (2:ℚ) ^ (1000 : ℤ) * 2 := by nlinarith
    have h2 : (2:ℚ) ^ (1000 : ℤ) * 2 = (2:ℚ) ^ (1001 : ℤ) := by
      rw [show (1001 : ℤ) = 1000 + 1 by norm_num, zpow_add₀ (two_ne_zero (α := ℚ)), zpow_one]
    have h3 : (2:ℚ) ^ (1024 : ℤ) ≤ (2:ℚ) ^ (1001 : ℤ) := by
      calc (2:ℚ) ^ (1024 : ℤ) ≤ (flPos f).val := hge
      _ ≤ f.val * 2 := hup
      _ ≤ (2:ℚ) ^ (1000 : ℤ) * 2 := this
      _ = (2:ℚ) ^ (1001 : ℤ) := h2
    have h4 : (2:ℚ) ^ (1001 : ℤ) < (2:ℚ) ^ (1024 : ℤ) :=
      zpow_lt_zpow_right₀ (by norm_num) (by omega)
    linarith
  refine ⟨flPos f, ?_, ?_, hd0, herr⟩
  · unfold fl
    have h1 : ¬ f.num = 0 := by omega
    simp only [h1, if_false, hnum, if_true, hnoofl, Bool.false_eq_true]
  · apply frac_num_pos_of_val_pos _ hd0
    have h1 : f.val - (flPos f).val ≤ f.val * ε := by
      have := (abs_le.mp herr).1
      linarith
    linarith

theorem jsFloorInt_spec (h : Frac) (hden : 0 < h.den) :
    jsFloorInt (.finite h) = ⌊h.val⌋ := by
  have hdq : (0:ℚ) < (h.den : ℚ) := by exact_mod_cast hden
  have hdz : (0:ℤ) < (h.den : ℤ) := by exact_mod_cast hden
  have hdm : (h.den : ℤ) * (h.num.ediv (h.den : ℤ)) + h.num.emod (h.den : ℤ) = h.num :=
    Int.ediv_add_emod h.num (h.den : ℤ)
  have h0 : (0:ℤ) ≤ h.num.emod (h.den : ℤ) := Int.emod_nonneg h.num (ne_of_gt hdz)
  have hlt : h.num.emod (h.den : ℤ) < (h.den : ℤ) := Int.emod_lt_of_pos h.num hdz
  show h.num.ediv (h.den : ℤ) = ⌊h.val⌋
  symm
  rw [Int.floor_eq_iff, Frac.val]
  qify at hdm h0 hlt
  constructor
  · rw [le_div_iff hdq]
    push_cast
    push_cast at hdm h0
    linarith
  · rw [div_lt_iff hdq]
    push_cast
    push_cast at hdm hlt
    linarith

theorem floorInt_close (x y : ℚ) (h : |x - y| ≤ 1 / 2) : |⌊x⌋ - ⌊y⌋| ≤ 1 := by
  obtain ⟨h1, h2⟩ := abs_le.mp h
  have hx1 : x ≤ y + 1 := by linarith
  have hx2 : y - 1 ≤ x := by linarith
  have f1 : ⌊x⌋ ≤ ⌊y + (1:ℤ)⌋ := Int.floor_le_floor (by push_cast; linarith)
  have f2 : ⌊y - (1:ℤ)⌋ ≤ ⌊x⌋ := Int.floor_le_floor (by push_cast; linarith)
  rw [Int.floor_add_int] at f1
  rw [Int.floor_sub_int] at f2
  rw [abs_le]
  omega

theorem conversion_within_one (s : String) (f : Frac) (c : ℕ)
    (hp : jsParseFloatExact s = .finite f) (hnum : 0 < f.num) (hden : 0 < f.den)
    (hlow : (2:ℚ) ^ (-1000 : ℤ) ≤ f.val) (hhigh : f.val ≤ 1000000)
    (hc1 : 1 ≤ c) (hc2 : (c:ℚ) ≤ 1000000000) :
    |jsFloorInt (jsMul (jsParseFloat s) (.finite ⟨(c : ℤ), 1⟩)) - ⌊f.val * (c:ℚ)⌋| ≤ 1 := by
  have hPF : jsParseFloat s = fl f := by
    unfold jsParseFloat
    rw [hp]
  have hcq1 : (1:ℚ) ≤ (c:ℚ) := by exact_mod_cast hc1
  have hcq0 : (0:ℚ) ≤ (c:ℚ) := by linarith
  have h1e6 : (1000000:ℚ) ≤ (2:ℚ) ^ (1000 : ℤ) := by
    calc (1000000:ℚ) ≤ (2:ℚ) ^ ((20:ℕ) : ℤ) := by
          rw [zpow_natCast]; norm_num
    _ ≤ (2:ℚ) ^ (1000 : ℤ) := two_zpow_mono (by omega)
  have hlow' : (2:ℚ) ^ (-1022 : ℤ) ≤ f.val := le_trans (two_zpow_mono (by omega)) hlow
  obtain ⟨g, hg, hgnum, hgden, hgerr⟩ :=
    fl_finite_spec f hnum hden hlow' (le_trans hhigh h1e6)
  have hvpos : 0 < f.val := frac_val_pos f hnum hden
  have hgv0 : 0 < g.val := frac_val_pos g hgnum hgden
  set ε := (2:ℚ) ^ (-53 : ℤ) with hεdef
  have hε0 : (0:ℚ) ≤ ε := by
    rw [hεdef]
    exact le_of_lt (two_zpow_pos _)
  have heps : ε ≤ 1 / 2 := by
    rw [hεdef]
    calc (2:ℚ) ^ (-53 : ℤ) ≤ (2:ℚ) ^ (-1 : ℤ) := two_zpow_mono (by omega)
    _ = 1 / 2 := by rw [zpow_neg, zpow_one]; norm_num
  have hkey : (3000000000000000:ℚ) * ε ≤ 1 / 2 := by
    rw [hεdef, show (-53 : ℤ) = -((53:ℕ) : ℤ) by omega, zpow_neg, zpow_natCast]
    norm_num
  clear_value ε
  have hmε : f.val * ε ≤ f.val * (1 / 2) :=
    mul_le_mul_of_nonneg_left heps (le_of_lt hvpos)
  have hgl : f.val / 2 ≤ g.val := by
    have h1 := (abs_le.mp hgerr).1
    linarith
  have hgu : g.val ≤ f.val * 2 := by
    have h1 := (abs_le.mp hgerr).2
    linarith
  have hval2 : (Frac.mk (g.num * (c:ℤ)) (g.den * 1)).val = g.val * (c:ℚ) := by
    unfold Frac.val
    push_cast
    ring
  have hfc : f.val * (c:ℚ) ≤ 1000000000000000 := by
    calc f.val * (c:ℚ) ≤ 1000000 * 1000000000 :=
      mul_le_mul hhigh hc2 hcq0 (by norm_num)
    _ = 1000000000000000 := by norm_num
  have h1001 : (2:ℚ) ^ (-1000 : ℤ) = 2 * (2:ℚ) ^ (-1001 : ℤ) := by
    rw [show (-1000 : ℤ) = 1 + -1001 by omega, zpow_add₀ (two_ne_zero (α := ℚ)), zpow_one]
  have hglow2 : (2:ℚ) ^ (-1022 : ℤ) ≤ (Frac.mk (g.num * (c:ℤ)) (g.den * 1)).val := by
    rw [hval2]
    have hstep : g.val ≤ g.val * (c:ℚ) := le_mul_of_one_le_right (le_of_lt hgv0) hcq1
    have h1 : (2:ℚ) ^ (-1022 : ℤ) ≤ (2:ℚ) ^ (-1001 : ℤ) := two_zpow_mono (by omega)
    linarith
  have hgvc2 : g.val * (c:ℚ) ≤ 2000000000000000 := by
    have hstep : g.val * (c:ℚ) ≤ (f.val * 2) * (c:ℚ) :=
      mul_le_mul_of_nonneg_right hgu hcq0
    nlinarith
  have hghigh2 : (Frac.mk (g.num * (c:ℤ)) (g.den * 1)).val ≤ (2:ℚ) ^ (1000 : ℤ) := by
    rw [hval2]
    have h51 : (2000000000000000:ℚ) ≤ (2:ℚ) ^ ((51:ℕ) : ℤ) := by
      rw [zpow_natCast]; norm_num
    have h51' : (2:ℚ) ^ ((51:ℕ) : ℤ) ≤ (2:ℚ) ^ (1000 : ℤ) := two_zpow_mono (by omega)
    linarith
  have hcz : (0:ℤ) < (c:ℤ) := by exact_mod_cast hc1
  obtain ⟨h2, hh, hhnum, hhden, hherr⟩ :=
    fl_finite_spec ⟨g.num * (c:ℤ), g.den * 1⟩ (by positivity) (by simpa using hgden)
      hglow2 hghigh2
  rw [← hεdef] at hherr
  have hmul : jsMul (.finite g) (.finite ⟨(c:ℤ), 1⟩) = fl ⟨g.num * (c:ℤ), g.den * 1⟩ := rfl
  rw [hPF, hg, hmul, hh, jsFloorInt_spec h2 hhden]
  apply floorInt_close
  rw [hval2] at hherr
  have t2 : |g.val * (c:ℚ) - f.val * (c:ℚ)| = |g.val - f.val| * (c:ℚ) := by
    rw [← sub_mul, abs_mul, abs_of_nonneg hcq0]
  have htri : |h2.val - f.val * (c:ℚ)| ≤
      |h2.val - g.val * (c:ℚ)| + |g.val * (c:ℚ) - f.val * (c:ℚ)| :=
    abs_sub_le _ _ _
  have hb1' : (g.val * (c:ℚ)) * ε ≤ 2000000000000000 * ε :=
    mul_le_mul_of_nonneg_right hgvc2 hε0
  have hb2 : |g.val - f.val| * (c:ℚ) ≤ (f.val * ε) * (c:ℚ) :=
    mul_le_mul_of_nonneg_right hgerr hcq0
  have hb2' : (f.val * ε) * (c:ℚ) ≤ 1000000000000000 * ε := by
    have hcomm : (f.val * ε) * (c:ℚ) = (f.val * (c:ℚ)) * ε := by ring
    rw [hcomm]
    exact mul_le_mul_of_nonneg_right hfc hε0
  calc |h2.val - f.val * (c:ℚ)|
      ≤ |h2.val - g.val * (c:ℚ)| + |g.val * (c:ℚ) - f.val * (c:ℚ)| := htri
  _ ≤ 2000000000000000 * ε + 1000000000000000 * ε := by
      rw [t2]
      have hx := le_trans hherr hb1'
      have hy := le_trans hb2 hb2'
      linarith
  _ ≤ 1 / 2 := by linarith [hkey]

/-- Counterexample to C1: the amount string `"4.1"` is converted by the code
to `4099999` base units (and `4099999999` lamports), not
`floor(4.1 × 10^6) = 4100000` (resp. `4.1 × 10^9`): the parsed double is
slightly below `4.1` and the rounded product falls below the integer
boundary.  The payment intent the USDC flow issues for `"4.1"` indeed
carries amount `"4099999"`. -/
theorem usdc_conversion_counterexample :
    jsParseFloatExact "4.1" = .finite ⟨41, 10⟩ ∧
    usdcBaseUnits "4.1" = 4099999 ∧
    solLamports "4.1" = 4099999999 ∧
    ⌊(Frac.mk 41 10).val * 1000000⌋ = 4100000 ∧
    ⌊(Frac.mk 41 10).val * 1000000000⌋ = 4100000000 ∧
    usdcBaseUnits "4.1" ≠ ⌊(Frac.mk 41 10).val * 1000000⌋ ∧
    NetworkCall.createPaymentIntent "ADDR1"
      { amount := "4099999", grid_user_id := some "user-1", source_account := "ADDR1",
        source_currency := "usdc", source_payment_rail := "smart_account",
        destination_address := "ADDR2", destination_currency := "usdc",
        destination_payment_rail := "smart_account" } ∈
      (transferTokens usdcEnv41 ⟨some sampleSession, some sampleSecrets⟩).calls := by
  have hval : (Frac.mk 41 10).val = (41:ℚ) / 10 := by
    unfold Frac.val
    norm_num
  have hf1 : ⌊(Frac.mk 41 10).val * 1000000⌋ = 4100000 := by
    rw [hval, show (41:ℚ)/10 * 1000000 = ((4100000:ℤ):ℚ) by norm_num, Int.floor_intCast]
  have hf2 : ⌊(Frac.mk 41 10).val * 1000000000⌋ = 4100000000 := by
    rw [hval, show (41:ℚ)/10 * 1000000000 = ((4100000000:ℤ):ℚ) by norm_num, Int.floor_intCast]
  refine ⟨by decide, by decide, by decide, hf1, hf2, ?_, by decide⟩
  rw [hf1, show usdcBaseUnits "4.1" = 4099999 from by decide]
  decide

/-- C1 as amended: the conversion is `Math.floor(parseFloat(amount) × factor)`
evaluated in binary64 arithmetic — `⌊fl(fl(a) · factor)⌋` for the exact
decimal value `a` of the accepted string — which differs from the exact
`⌊a · factor⌋` by at most one base unit (for amounts in the validated range,
with `a` not below `2^-1000`), and can differ (amount `"4.1"`). -/
theorem conversion_matches_ieee_rounding (s : String) (f : Frac)
    (hp : jsParseFloatExact s = .finite f) (hnum : 0 < f.num) (hden : 0 < f.den)
    (hlow : (2:ℚ) ^ (-1000 : ℤ) ≤ f.val) (hhigh : f.val ≤ 1000000) :
    |usdcBaseUnits s - ⌊f.val * 1000000⌋| ≤ 1 ∧
    |solLamports s - ⌊f.val * 1000000000⌋| ≤ 1 := by
  constructor
  · have h := conversion_within_one s f 1000000 hp hnum hden hlow hhigh
      (by norm_num) (by norm_num)
    unfold usdcBaseUnits
    push_cast at h
    exact h
  · have h := conversion_within_one s f 1000000000 hp hnum hden hlow hhigh
      (by norm_num) (by norm_num)
    unfold solLamports
    push_cast at h
    exact h

/-- Witness for the amended C1 at the amount `"12.5"` (whose conversion is in
fact exact: 12500000 base units). -/
theorem conversion_matches_ieee_rounding_witness :
    |usdcBaseUnits "12.5" - ⌊(Frac.mk 125 10).val * 1000000⌋| ≤ 1 ∧
    |solLamports "12.5" - ⌊(Frac.mk 125 10).val * 1000000000⌋| ≤ 1 :=
  conversion_matches_ieee_rounding "12.5" ⟨125, 10⟩ (by decide) (by decide) (by decide)
    (by
      have h1 : (2:ℚ) ^ (-1000 : ℤ) ≤ (2:ℚ) ^ (0 : ℤ) := two_zpow_mono (by omega)
      rw [zpow_zero] at h1
      have h2 : (Frac.mk 125 10).val = (25:ℚ) / 2 := by
        unfold Frac.val
        norm_num
      rw [h2]
      linarith)
    (by
      have h2 : (Frac.mk 125 10).val = (25:ℚ) / 2 := by
        unfold Frac.val
        norm_num
      rw [h2]
      norm_num)
